import Mathlib

/-!
Shallow embedding of the store deployment pipeline of the buildcart repository
(`src/services/deploymentService.js`, `src/controllers/deploymentController.js`,
`src/routes/stores.js`, auth/validation middleware, `prisma/schema.prisma`).

Conventions of the embedding:
* Database state (Prisma store/deployment tables) is an explicit `DB` value
  threaded through the operations.
* JavaScript `Date.now()` is a `Nat` millisecond clock passed in by the caller;
  `Date.prototype.toISOString()` renderings of externally supplied dates are
  carried as already-rendered strings (real time is an external input).
* Filesystem failures of the build writer are an external oracle
  (`fsFail : Option String`): `none` means every write succeeds, `some msg`
  means the render/write step throws an error with message `msg`.
* The `process.env.SUBDOMAIN_SUFFIX` variable is the `envSuffix : Option String`
  parameter.
* Fallible operations return `Except JsError α` together with the new state.
  `JsError.jsRefError` models a JavaScript `ReferenceError` (reading a variable
  that is not in scope), distinct from thrown `new Error(msg)` values.
-/

/-- JavaScript truthiness helper for `a || d` where `a` is a nullable string
field and `d` a string: `null`/`undefined`/`""` are falsy. -/
def jsOrStr (a : Option String) (d : String) : String :=
  match a with
  | some s => if s = "" then d else s
  | none => d

/-- Template interpolation of a nullable string: `null` renders as "null". -/
def jsStr (a : Option String) : String :=
  match a with
  | some s => s
  | none => "null"

/-- JavaScript `a || b` for two nullable string fields, as rendered inside a template. -/
def jsOrOpt (a b : Option String) : String :=
  jsOrStr a (jsStr b)

/-- Prisma `enum Role` from `prisma/schema.prisma`. -/
inductive Role where
  | USER
  | ADMIN
  | SUPER_ADMIN
deriving DecidableEq, Repr

/-- Prisma `enum StoreStatus` from `prisma/schema.prisma`. -/
inductive StoreStatus where
  | DRAFT
  | PUBLISHED
  | ARCHIVED
deriving DecidableEq, Repr

/-- Prisma `enum DeploymentStatus` from `prisma/schema.prisma`. -/
inductive DeploymentStatus where
  | PENDING
  | BUILDING
  | SUCCESS
  | FAILED
deriving DecidableEq, Repr

/-- The theme Json blob consumed by `generateStyles`/`generateScripts`. -/
structure Theme where
  primaryColor : Option String
  secondaryColor : Option String
deriving DecidableEq, Repr

/-- An active product as included by the `deployStore` snapshot query
(`prisma.store.findUnique` with `products: { where: { isActive: true } }`).
`price` is the product's price as interpolated into the templates (the
JavaScript number rendering of the Decimal column); `updatedAtIso` is the
`new Date(product.updatedAt).toISOString()` rendering used by the sitemap. -/
structure Product where
  id : String
  name : String
  description : Option String
  shortDescription : Option String
  metaDescription : Option String
  price : String
  images : List String
  urlHandle : Option String
  updatedAtIso : String
deriving DecidableEq, Repr

/-- Prisma `model Store` from `prisma/schema.prisma` (the fields read or written by the
deployment pipeline), including the active-product list of the snapshot. -/
structure Store where
  id : String
  name : String
  slug : String
  customDomain : Option String
  userId : String
  description : Option String
  metaTitle : Option String
  metaDescription : Option String
  theme : Theme
  status : StoreStatus
  isDeployed : Bool
  deploymentUrl : Option String
  products : List Product
deriving DecidableEq, Repr

/-- The Json `config` blob stored on a deployment record by `deployStore`
(`{ store, environment, timestamp }`; the timestamp is the call's clock). -/
structure DeployConfig where
  store : Store
  environment : String
  timestampMs : Nat
deriving DecidableEq, Repr

/-- Prisma `model Deployment` from `prisma/schema.prisma` (fields used by the pipeline).
`id` is the cuid, modelled as a counter value; `createdAt` is the creation
clock in milliseconds. -/
structure Deployment where
  id : Nat
  storeId : String
  version : String
  status : DeploymentStatus
  url : Option String
  buildLogs : Option String
  config : DeployConfig
  environment : String
  createdAt : Nat
  deployedAt : Option Nat
deriving DecidableEq, Repr

/-- The authenticated user attached to `req.user` by the auth middleware. -/
structure User where
  id : String
  role : Role
deriving DecidableEq, Repr

/-- One written build tree: destination namespace (the store slug) together
with the relative-path/content mapping materialised under `builds/<slug>`. -/
structure BuildTree where
  slug : String
  files : List (String × String)
deriving DecidableEq, Repr

/-- The persistent state: store table, deployment table, the id counter used
for fresh deployment cuids, and the durable build output directory. -/
structure DB where
  stores : List Store
  deployments : List Deployment
  nextDeploymentId : Nat
  builds : List BuildTree
deriving DecidableEq, Repr

/-- Thrown JavaScript values: `new Error(msg)` (also the typed middleware
error classes carry a message) and `ReferenceError` for reading a variable
that is not in scope. -/
inductive JsError where
  | jsError (msg : String)
  | jsRefError (msg : String)
deriving DecidableEq, Repr

deriving instance DecidableEq for Except

/-- Model of `prisma.store.findUnique` by id. -/
def findStore? (db : DB) (storeId : String) : Option Store :=
  db.stores.find? (fun s => s.id == storeId)

/-- Model of `prisma.deployment.findUnique` by id. -/
def findDeployment? (db : DB) (deploymentId : Nat) : Option Deployment :=
  db.deployments.find? (fun d => d.id == deploymentId)

/-- Model of `prisma.store.update` by id, applied to the store table (the
caller has already established existence). -/
def updateStoreById (db : DB) (storeId : String) (f : Store → Store) : DB :=
  { db with stores := db.stores.map (fun s => if s.id == storeId then f s else s) }

/-- Model of `prisma.deployment.update` by id. -/
def updateDeploymentById (db : DB) (deploymentId : Nat) (f : Deployment → Deployment) : DB :=
  { db with deployments :=
      db.deployments.map (fun d => if d.id == deploymentId then f d else d) }

/-- Model of `DeploymentService.generateStoreUrl`: custom domain if bound, else
`https://<slug><SUBDOMAIN_SUFFIX or .stores.buildcart.ai>`. -/
def generateStoreUrl (envSuffix : Option String) (store : Store) : String :=
  match store.customDomain with
  | some d => "https://" ++ d
  | none => "https://" ++ store.slug ++ (jsOrStr envSuffix ".stores.buildcart.ai")

/-- Model of `DeploymentService.generateVersion`: the template literal `v` followed by
the decimal rendering of `Date.now()`. -/
def generateVersion (now : Nat) : String :=
  "v" ++ Nat.repr now

/-- The per-product card fragment of the featured-products section of the
home page (`generateHomePage`, the body of the `slice(0, 6).map` callback). -/
def homeProductCardHtml (product : Product) : String :=
  "
                    <div class=\"product-card\">
                        <img src=\""
    ++ (jsOrStr product.images.head? "/placeholder.jpg")
    ++ "\" alt=\""
    ++ product.name
    ++ "\">
                        <h4>"
    ++ product.name
    ++ "</h4>
                        <p class=\"price\">$"
    ++ product.price
    ++ "</p>
                        <button class=\"btn btn-secondary\" onclick=\"addToCart(\x27"
    ++ product.id
    ++ "\x27)\">Add to Cart</button>
                    </div>
                "

/-- Part of `generateHomePage`: the template text before the featured-products map. -/
def homePageHead (envSuffix : Option String) (store : Store) : String :=
  "
<!DOCTYPE html>
<html lang=\"en\">
<head>
    <meta charset=\"UTF-8\">
    <meta name=\"viewport\" content=\"width=device-width, initial-scale=1.0\">
    <title>"
    ++ (jsOrStr store.metaTitle store.name)
    ++ "</title>
    <meta name=\"description\" content=\""
    ++ (jsOrOpt store.metaDescription store.description)
    ++ "\">
    <link rel=\"stylesheet\" href=\"/styles.css\">
    <link rel=\"canonical\" href=\""
    ++ (generateStoreUrl envSuffix store)
    ++ "\">
</head>
<body>
    <header class=\"header\">
        <nav class=\"nav\">
            <div class=\"nav-brand\">
                <h1>"
    ++ store.name
    ++ "</h1>
            </div>
            <ul class=\"nav-menu\">
                <li><a href=\"/\">Home</a></li>
                <li><a href=\"/products\">Products</a></li>
                <li><a href=\"/about\">About</a></li>
                <li><a href=\"/contact\">Contact</a></li>
                <li><a href=\"/cart\" class=\"cart-link\">Cart (<span id=\"cart-count\">0</span>)</a></li>
            </ul>
        </nav>
    </header>

    <main class=\"main\">
        <section class=\"hero\">
            <div class=\"hero-content\">
                <h2>Welcome to "
    ++ store.name
    ++ "</h2>
                <p>"
    ++ (jsOrStr store.description "Discover amazing products at great prices.")
    ++ "</p>
                <a href=\"/products\" class=\"btn btn-primary\">Shop Now</a>
            </div>
        </section>

        <section class=\"featured-products\">
            <h3>Featured Products</h3>
            <div class=\"products-grid\">
                "

/-- Part of `generateHomePage`: the template text after the featured-products map. -/
def homePageTail (store : Store) : String :=
  "
            </div>
        </section>
    </main>

    <footer class=\"footer\">
        <p>&copy; 2024 "
    ++ store.name
    ++ ". All rights reserved.</p>
    </footer>

    <script src=\"/scripts.js\"></script>
</body>
</html>"

/-- Model of `DeploymentService.generateHomePage`: the html written to `index.html`.
The featured grid interpolates `store.products.slice(0, 6).map(...).join('')`. -/
def generateHomePageHtml (envSuffix : Option String) (store : Store) : String :=
  homePageHead envSuffix store
    ++ String.join ((store.products.take 6).map homeProductCardHtml)
    ++ homePageTail store

/-- The per-product card fragment of the listing page
(`generateProductsPage`, the body of the `store.products.map` callback). -/
def productCardHtml (product : Product) : String :=
  "
                    <div class=\"product-card\">
                        <img src=\""
    ++ (jsOrStr product.images.head? "/placeholder.jpg")
    ++ "\" alt=\""
    ++ product.name
    ++ "\">
                        <h4>"
    ++ product.name
    ++ "</h4>
                        <p class=\"description\">"
    ++ (jsOrOpt product.shortDescription product.description)
    ++ "</p>
                        <p class=\"price\">$"
    ++ product.price
    ++ "</p>
                        <button class=\"btn btn-secondary\" onclick=\"addToCart(\x27"
    ++ product.id
    ++ "\x27)\">Add to Cart</button>
                    </div>
                "

/-- Part of `generateProductsPage`: the template text before the product map. -/
def productsPageHead (store : Store) : String :=
  "
<!DOCTYPE html>
<html lang=\"en\">
<head>
    <meta charset=\"UTF-8\">
    <meta name=\"viewport\" content=\"width=device-width, initial-scale=1.0\">
    <title>Products - "
    ++ store.name
    ++ "</title>
    <meta name=\"description\" content=\"Browse our collection of products\">
    <link rel=\"stylesheet\" href=\"/styles.css\">
</head>
<body>
    <header class=\"header\">
        <nav class=\"nav\">
            <div class=\"nav-brand\">
                <h1><a href=\"/\">"
    ++ store.name
    ++ "</a></h1>
            </div>
            <ul class=\"nav-menu\">
                <li><a href=\"/\">Home</a></li>
                <li><a href=\"/products\">Products</a></li>
                <li><a href=\"/about\">About</a></li>
                <li><a href=\"/contact\">Contact</a></li>
                <li><a href=\"/cart\" class=\"cart-link\">Cart (<span id=\"cart-count\">0</span>)</a></li>
            </ul>
        </nav>
    </header>

    <main class=\"main\">
        <section class=\"products-section\">
            <h2>All Products</h2>
            <div class=\"products-grid\">
                "

/-- Part of `generateProductsPage`: the template text after the product map. -/
def productsPageTail (store : Store) : String :=
  "
            </div>
        </section>
    </main>

    <footer class=\"footer\">
        <p>&copy; 2024 "
    ++ store.name
    ++ ". All rights reserved.</p>
    </footer>

    <script src=\"/scripts.js\"></script>
</body>
</html>"

/-- Model of `DeploymentService.generateProductsPage`: the html written to
`products.html`; the grid interpolates `store.products.map(...).join('')`. -/
def generateProductsPageHtml (store : Store) : String :=
  productsPageHead store
    ++ String.join (store.products.map productCardHtml)
    ++ productsPageTail store

/-- Model of `DeploymentService.generateProductPages`: the html written to
`product/<urlHandle-or-id>.html` for one product. -/
def generateProductPageHtml (store : Store) (product : Product) : String :=
  "
<!DOCTYPE html>
<html lang=\"en\">
<head>
    <meta charset=\"UTF-8\">
    <meta name=\"viewport\" content=\"width=device-width, initial-scale=1.0\">
    <title>"
    ++ product.name
    ++ " - "
    ++ store.name
    ++ "</title>
    <meta name=\"description\" content=\""
    ++ (jsOrOpt product.metaDescription product.description)
    ++ "\">
    <link rel=\"stylesheet\" href=\"/styles.css\">
</head>
<body>
    <header class=\"header\">
        <nav class=\"nav\">
            <div class=\"nav-brand\">
                <h1><a href=\"/\">"
    ++ store.name
    ++ "</a></h1>
            </div>
            <ul class=\"nav-menu\">
                <li><a href=\"/\">Home</a></li>
                <li><a href=\"/products\">Products</a></li>
                <li><a href=\"/about\">About</a></li>
                <li><a href=\"/contact\">Contact</a></li>
                <li><a href=\"/cart\" class=\"cart-link\">Cart (<span id=\"cart-count\">0</span>)</a></li>
            </ul>
        </nav>
    </header>

    <main class=\"main\">
        <section class=\"product-detail\">
            <div class=\"product-images\">
                <img src=\""
    ++ (jsOrStr product.images.head? "/placeholder.jpg")
    ++ "\" alt=\""
    ++ product.name
    ++ "\">
            </div>
            <div class=\"product-info\">
                <h1>"
    ++ product.name
    ++ "</h1>
                <p class=\"description\">"
    ++ (jsStr product.description)
    ++ "</p>
                <p class=\"price\">$"
    ++ product.price
    ++ "</p>
                <div class=\"product-actions\">
                    <button class=\"btn btn-primary\" onclick=\"addToCart(\x27"
    ++ product.id
    ++ "\x27)\">Add to Cart</button>
                </div>
            </div>
        </section>
    </main>

    <footer class=\"footer\">
        <p>&copy; 2024 "
    ++ store.name
    ++ ". All rights reserved.</p>
    </footer>

    <script src=\"/scripts.js\"></script>
</body>
</html>"

/-- Model of `DeploymentService.generateCartPage`. -/
def generateCartPageHtml (store : Store) : String :=
  "
<!DOCTYPE html>
<html lang=\"en\">
<head>
    <meta charset=\"UTF-8\">
    <meta name=\"viewport\" content=\"width=device-width, initial-scale=1.0\">
    <title>Cart - "
    ++ store.name
    ++ "</title>
    <link rel=\"stylesheet\" href=\"/styles.css\">
</head>
<body>
    <header class=\"header\">
        <nav class=\"nav\">
            <div class=\"nav-brand\">
                <h1><a href=\"/\">"
    ++ store.name
    ++ "</a></h1>
            </div>
            <ul class=\"nav-menu\">
                <li><a href=\"/\">Home</a></li>
                <li><a href=\"/products\">Products</a></li>
                <li><a href=\"/about\">About</a></li>
                <li><a href=\"/contact\">Contact</a></li>
                <li><a href=\"/cart\" class=\"cart-link\">Cart (<span id=\"cart-count\">0</span>)</a></li>
            </ul>
        </nav>
    </header>

    <main class=\"main\">
        <section class=\"cart-section\">
            <h2>Shopping Cart</h2>
            <div id=\"cart-items\">
                <!-- Cart items will be populated by JavaScript -->
            </div>
            <div class=\"cart-total\">
                <h3>Total: $<span id=\"cart-total\">0.00</span></h3>
                <button class=\"btn btn-primary\" onclick=\"proceedToCheckout()\">Proceed to Checkout</button>
            </div>
        </section>
    </main>

    <footer class=\"footer\">
        <p>&copy; 2024 "
    ++ store.name
    ++ ". All rights reserved.</p>
    </footer>

    <script src=\"/scripts.js\"></script>
</body>
</html>"

/-- Model of `DeploymentService.generateCheckoutPage`. -/
def generateCheckoutPageHtml (store : Store) : String :=
  "
<!DOCTYPE html>
<html lang=\"en\">
<head>
    <meta charset=\"UTF-8\">
    <meta name=\"viewport\" content=\"width=device-width, initial-scale=1.0\">
    <title>Checkout - "
    ++ store.name
    ++ "</title>
    <link rel=\"stylesheet\" href=\"/styles.css\">
</head>
<body>
    <header class=\"header\">
        <nav class=\"nav\">
            <div class=\"nav-brand\">
                <h1><a href=\"/\">"
    ++ store.name
    ++ "</a></h1>
            </div>
        </nav>
    </header>

    <main class=\"main\">
        <section class=\"checkout-section\">
            <h2>Checkout</h2>
            <form id=\"checkout-form\" class=\"checkout-form\">
                <div class=\"form-section\">
                    <h3>Contact Information</h3>
                    <input type=\"email\" name=\"email\" placeholder=\"Email\" required>
                    <input type=\"tel\" name=\"phone\" placeholder=\"Phone\">
                </div>
                
                <div class=\"form-section\">
                    <h3>Shipping Address</h3>
                    <input type=\"text\" name=\"firstName\" placeholder=\"First Name\" required>
                    <input type=\"text\" name=\"lastName\" placeholder=\"Last Name\" required>
                    <input type=\"text\" name=\"address\" placeholder=\"Address\" required>
                    <input type=\"text\" name=\"city\" placeholder=\"City\" required>
                    <input type=\"text\" name=\"state\" placeholder=\"State\" required>
                    <input type=\"text\" name=\"zip\" placeholder=\"ZIP Code\" required>
                    <input type=\"text\" name=\"country\" placeholder=\"Country\" required>
                </div>

                <div class=\"form-section\">
                    <h3>Payment Information</h3>
                    <input type=\"text\" name=\"cardNumber\" placeholder=\"Card Number\" required>
                    <input type=\"text\" name=\"expiry\" placeholder=\"MM/YY\" required>
                    <input type=\"text\" name=\"cvv\" placeholder=\"CVV\" required>
                </div>

                <button type=\"submit\" class=\"btn btn-primary\">Place Order</button>
            </form>
        </section>
    </main>

    <footer class=\"footer\">
        <p>&copy; 2024 "
    ++ store.name
    ++ ". All rights reserved.</p>
    </footer>

    <script src=\"/scripts.js\"></script>
</body>
</html>"

/-- Model of `DeploymentService.generateContactPage`. -/
def generateContactPageHtml (store : Store) : String :=
  "
<!DOCTYPE html>
<html lang=\"en\">
<head>
    <meta charset=\"UTF-8\">
    <meta name=\"viewport\" content=\"width=device-width, initial-scale=1.0\">
    <title>Contact - "
    ++ store.name
    ++ "</title>
    <link rel=\"stylesheet\" href=\"/styles.css\">
</head>
<body>
    <header class=\"header\">
        <nav class=\"nav\">
            <div class=\"nav-brand\">
                <h1><a href=\"/\">"
    ++ store.name
    ++ "</a></h1>
            </div>
            <ul class=\"nav-menu\">
                <li><a href=\"/\">Home</a></li>
                <li><a href=\"/products\">Products</a></li>
                <li><a href=\"/about\">About</a></li>
                <li><a href=\"/contact\">Contact</a></li>
                <li><a href=\"/cart\" class=\"cart-link\">Cart (<span id=\"cart-count\">0</span>)</a></li>
            </ul>
        </nav>
    </header>

    <main class=\"main\">
        <section class=\"contact-section\">
            <h2>Contact Us</h2>
            <p>Get in touch with us for any questions or support.</p>
            <form class=\"contact-form\">
                <input type=\"text\" name=\"name\" placeholder=\"Your Name\" required>
                <input type=\"email\" name=\"email\" placeholder=\"Your Email\" required>
                <textarea name=\"message\" placeholder=\"Your Message\" required></textarea>
                <button type=\"submit\" class=\"btn btn-primary\">Send Message</button>
            </form>
        </section>
    </main>

    <footer class=\"footer\">
        <p>&copy; 2024 "
    ++ store.name
    ++ ". All rights reserved.</p>
    </footer>

    <script src=\"/scripts.js\"></script>
</body>
</html>"

/-- Model of `DeploymentService.generateAboutPage`. -/
def generateAboutPageHtml (store : Store) : String :=
  "
<!DOCTYPE html>
<html lang=\"en\">
<head>
    <meta charset=\"UTF-8\">
    <meta name=\"viewport\" content=\"width=device-width, initial-scale=1.0\">
    <title>About - "
    ++ store.name
    ++ "</title>
    <link rel=\"stylesheet\" href=\"/styles.css\">
</head>
<body>
    <header class=\"header\">
        <nav class=\"nav\">
            <div class=\"nav-brand\">
                <h1><a href=\"/\">"
    ++ store.name
    ++ "</a></h1>
            </div>
            <ul class=\"nav-menu\">
                <li><a href=\"/\">Home</a></li>
                <li><a href=\"/products\">Products</a></li>
                <li><a href=\"/about\">About</a></li>
                <li><a href=\"/contact\">Contact</a></li>
                <li><a href=\"/cart\" class=\"cart-link\">Cart (<span id=\"cart-count\">0</span>)</a></li>
            </ul>
        </nav>
    </header>

    <main class=\"main\">
        <section class=\"about-section\">
            <h2>About "
    ++ store.name
    ++ "</h2>
            <p>"
    ++ (jsOrStr store.description "We are dedicated to providing quality products and excellent service to our customers.")
    ++ "</p>
        </section>
    </main>

    <footer class=\"footer\">
        <p>&copy; 2024 "
    ++ store.name
    ++ ". All rights reserved.</p>
    </footer>

    <script src=\"/scripts.js\"></script>
</body>
</html>"

/-- Model of `DeploymentService.generateStyles`: the stylesheet written to `styles.css`,
parameterised by `store.theme.primaryColor || '#3B82F6'` and
`store.theme.secondaryColor || '#1F2937'`. -/
def generateStylesCss (store : Store) : String :=
  let primaryColor := jsOrStr store.theme.primaryColor "#3B82F6"
  let secondaryColor := jsOrStr store.theme.secondaryColor "#1F2937"
  "
/* Reset and base styles */
* \x7b
    margin: 0;
    padding: 0;
    box-sizing: border-box;
\x7d

body \x7b
    font-family: \x27Inter\x27, -apple-system, BlinkMacSystemFont, sans-serif;
    line-height: 1.6;
    color: #333;
\x7d

/* Header */
.header \x7b
    background: white;
    box-shadow: 0 2px 4px rgba(0,0,0,0.1);
    position: sticky;
    top: 0;
    z-index: 100;
\x7d

.nav \x7b
    max-width: 1200px;
    margin: 0 auto;
    padding: 1rem;
    display: flex;
    justify-content: space-between;
    align-items: center;
\x7d

.nav-brand h1 \x7b
    color: "
    ++ primaryColor
    ++ ";
    font-size: 1.5rem;
\x7d

.nav-brand a \x7b
    text-decoration: none;
    color: inherit;
\x7d

.nav-menu \x7b
    display: flex;
    list-style: none;
    gap: 2rem;
\x7d

.nav-menu a \x7b
    text-decoration: none;
    color: #333;
    font-weight: 500;
    transition: color 0.3s;
\x7d

.nav-menu a:hover \x7b
    color: "
    ++ primaryColor
    ++ ";
\x7d

/* Main content */
.main \x7b
    max-width: 1200px;
    margin: 0 auto;
    padding: 2rem 1rem;
\x7d

/* Hero section */
.hero \x7b
    background: linear-gradient(135deg, "
    ++ primaryColor
    ++ ", "
    ++ secondaryColor
    ++ ");
    color: white;
    padding: 4rem 2rem;
    text-align: center;
    border-radius: 12px;
    margin-bottom: 3rem;
\x7d

.hero h2 \x7b
    font-size: 2.5rem;
    margin-bottom: 1rem;
\x7d

.hero p \x7b
    font-size: 1.2rem;
    margin-bottom: 2rem;
    opacity: 0.9;
\x7d

/* Buttons */
.btn \x7b
    display: inline-block;
    padding: 0.75rem 1.5rem;
    border: none;
    border-radius: 6px;
    text-decoration: none;
    font-weight: 500;
    cursor: pointer;
    transition: all 0.3s;
\x7d

.btn-primary \x7b
    background: "
    ++ primaryColor
    ++ ";
    color: white;
\x7d

.btn-primary:hover \x7b
    background: "
    ++ secondaryColor
    ++ ";
    transform: translateY(-2px);
\x7d

.btn-secondary \x7b
    background: #f3f4f6;
    color: #333;
    border: 1px solid #d1d5db;
\x7d

.btn-secondary:hover \x7b
    background: #e5e7eb;
\x7d

/* Products grid */
.products-grid \x7b
    display: grid;
    grid-template-columns: repeat(auto-fit, minmax(250px, 1fr));
    gap: 2rem;
    margin-top: 2rem;
\x7d

.product-card \x7b
    background: white;
    border-radius: 8px;
    padding: 1rem;
    box-shadow: 0 2px 4px rgba(0,0,0,0.1);
    transition: transform 0.3s;
\x7d

.product-card:hover \x7b
    transform: translateY(-4px);
    box-shadow: 0 4px 8px rgba(0,0,0,0.15);
\x7d

.product-card img \x7b
    width: 100%;
    height: 200px;
    object-fit: cover;
    border-radius: 6px;
    margin-bottom: 1rem;
\x7d

.product-card h4 \x7b
    margin-bottom: 0.5rem;
    color: #333;
\x7d

.product-card .description \x7b
    color: #666;
    margin-bottom: 1rem;
    font-size: 0.9rem;
\x7d

.product-card .price \x7b
    font-size: 1.2rem;
    font-weight: bold;
    color: "
    ++ primaryColor
    ++ ";
    margin-bottom: 1rem;
\x7d

/* Product detail */
.product-detail \x7b
    display: grid;
    grid-template-columns: 1fr 1fr;
    gap: 3rem;
    margin-top: 2rem;
\x7d

.product-images img \x7b
    width: 100%;
    border-radius: 8px;
\x7d

.product-info h1 \x7b
    margin-bottom: 1rem;
    color: #333;
\x7d

.product-info .description \x7b
    color: #666;
    margin-bottom: 2rem;
    line-height: 1.8;
\x7d

.product-info .price \x7b
    font-size: 2rem;
    font-weight: bold;
    color: "
    ++ primaryColor
    ++ ";
    margin-bottom: 2rem;
\x7d

/* Cart */
.cart-section \x7b
    max-width: 800px;
    margin: 0 auto;
\x7d

.cart-total \x7b
    margin-top: 2rem;
    padding: 2rem;
    background: #f9fafb;
    border-radius: 8px;
    text-align: right;
\x7d

/* Checkout form */
.checkout-form \x7b
    max-width: 600px;
    margin: 0 auto;
\x7d

.form-section \x7b
    margin-bottom: 2rem;
    padding: 1.5rem;
    background: #f9fafb;
    border-radius: 8px;
\x7d

.form-section h3 \x7b
    margin-bottom: 1rem;
    color: #333;
\x7d

.checkout-form input,
.checkout-form textarea \x7b
    width: 100%;
    padding: 0.75rem;
    border: 1px solid #d1d5db;
    border-radius: 6px;
    margin-bottom: 1rem;
    font-size: 1rem;
\x7d

.checkout-form textarea \x7b
    height: 100px;
    resize: vertical;
\x7d

/* Contact form */
.contact-form \x7b
    max-width: 500px;
    margin: 0 auto;
\x7d

.contact-form input,
.contact-form textarea \x7b
    width: 100%;
    padding: 0.75rem;
    border: 1px solid #d1d5db;
    border-radius: 6px;
    margin-bottom: 1rem;
    font-size: 1rem;
\x7d

.contact-form textarea \x7b
    height: 150px;
    resize: vertical;
\x7d

/* Footer */
.footer \x7b
    background: #f9fafb;
    text-align: center;
    padding: 2rem;
    margin-top: 4rem;
    color: #666;
\x7d

/* Responsive */
@media (max-width: 768px) \x7b
    .nav \x7b
        flex-direction: column;
        gap: 1rem;
    \x7d
    
    .nav-menu \x7b
        flex-wrap: wrap;
        justify-content: center;
    \x7d
    
    .product-detail \x7b
        grid-template-columns: 1fr;
        gap: 2rem;
    \x7d
    
    .hero h2 \x7b
        font-size: 2rem;
    \x7d
    
    .products-grid \x7b
        grid-template-columns: repeat(auto-fit, minmax(200px, 1fr));
        gap: 1rem;
    \x7d
\x7d"

/-- Model of `DeploymentService.generateScripts`: the client script written to
`scripts.js` (its own nested template literals are part of the emitted text). -/
def generateScriptsJs (store : Store) : String :=
  "
// Cart functionality
let cart = JSON.parse(localStorage.getItem(\x27cart\x27)) || [];

function updateCartCount() \x7b
    const count = cart.reduce((total, item) => total + item.quantity, 0);
    document.getElementById(\x27cart-count\x27).textContent = count;
\x7d

function addToCart(productId) \x7b
    const existingItem = cart.find(item => item.id === productId);
    
    if (existingItem) \x7b
        existingItem.quantity += 1;
    \x7d else \x7b
        cart.push(\x7b id: productId, quantity: 1 \x7d);
    \x7d
    
    localStorage.setItem(\x27cart\x27, JSON.stringify(cart));
    updateCartCount();
    
    // Show notification
    showNotification(\x27Product added to cart!\x27);
\x7d

function removeFromCart(productId) \x7b
    cart = cart.filter(item => item.id !== productId);
    localStorage.setItem(\x27cart\x27, JSON.stringify(cart));
    updateCartCount();
    displayCart();
\x7d

function updateQuantity(productId, quantity) \x7b
    const item = cart.find(item => item.id === productId);
    if (item) \x7b
        item.quantity = parseInt(quantity);
        if (item.quantity <= 0) \x7b
            removeFromCart(productId);
        \x7d else \x7b
            localStorage.setItem(\x27cart\x27, JSON.stringify(cart));
            updateCartCount();
            displayCart();
        \x7d
    \x7d
\x7d

function displayCart() \x7b
    const cartItems = document.getElementById(\x27cart-items\x27);
    const cartTotal = document.getElementById(\x27cart-total\x27);
    
    if (!cartItems) return;
    
    if (cart.length === 0) \x7b
        cartItems.innerHTML = \x27<p>Your cart is empty.</p>\x27;
        cartTotal.textContent = \x270.00\x27;
        return;
    \x7d
    
    // This would typically fetch product details from an API
    // For now, we\x27ll show a simple representation
    const cartHTML = cart.map(item => \x60
        <div class=\"cart-item\">
            <span>Product $\x7bitem.id\x7d</span>
            <input type=\"number\" value=\"$\x7bitem.quantity\x7d\" min=\"1\" 
                   onchange=\"updateQuantity(\x27$\x7bitem.id\x7d\x27, this.value)\">
            <button onclick=\"removeFromCart(\x27$\x7bitem.id\x7d\x27)\">Remove</button>
        </div>
    \x60).join(\x27\x27);
    
    cartItems.innerHTML = cartHTML;
    cartTotal.textContent = (cart.length * 9.99).toFixed(2); // Placeholder price
\x7d

function proceedToCheckout() \x7b
    if (cart.length === 0) \x7b
        showNotification(\x27Your cart is empty!\x27);
        return;
    \x7d
    window.location.href = \x27/checkout.html\x27;
\x7d

// Checkout form handling
document.addEventListener(\x27DOMContentLoaded\x27, function() \x7b
    const checkoutForm = document.getElementById(\x27checkout-form\x27);
    if (checkoutForm) \x7b
        checkoutForm.addEventListener(\x27submit\x27, function(e) \x7b
            e.preventDefault();
            
            // Collect form data
            const formData = new FormData(checkoutForm);
            const orderData = Object.fromEntries(formData);
            
            // Add cart data
            orderData.items = cart;
            orderData.total = (cart.length * 9.99).toFixed(2);
            
            // Submit order (this would typically go to your API)
            console.log(\x27Order data:\x27, orderData);
            
            // Clear cart
            cart = [];
            localStorage.setItem(\x27cart\x27, JSON.stringify(cart));
            
            // Show success message
            showNotification(\x27Order placed successfully!\x27);
            
            // Redirect to home
            setTimeout(() => \x7b
                window.location.href = \x27/\x27;
            \x7d, 2000);
        \x7d);
    \x7d
    
    // Initialize cart count
    updateCartCount();
    
    // Display cart if on cart page
    if (window.location.pathname === \x27/cart.html\x27) \x7b
        displayCart();
    \x7d
\x7d);

// Contact form handling
document.addEventListener(\x27DOMContentLoaded\x27, function() \x7b
    const contactForm = document.querySelector(\x27.contact-form\x27);
    if (contactForm) \x7b
        contactForm.addEventListener(\x27submit\x27, function(e) \x7b
            e.preventDefault();
            
            // Collect form data
            const formData = new FormData(contactForm);
            const contactData = Object.fromEntries(formData);
            
            // Submit contact form (this would typically go to your API)
            console.log(\x27Contact data:\x27, contactData);
            
            // Show success message
            showNotification(\x27Message sent successfully!\x27);
            
            // Reset form
            contactForm.reset();
        \x7d);
    \x7d
\x7d);

// Notification system
function showNotification(message) \x7b
    // Create notification element
    const notification = document.createElement(\x27div\x27);
    notification.style.cssText = \x60
        position: fixed;
        top: 20px;
        right: 20px;
        background: "
    ++ (jsOrStr store.theme.primaryColor "#3B82F6")
    ++ ";
        color: white;
        padding: 1rem 1.5rem;
        border-radius: 6px;
        box-shadow: 0 4px 8px rgba(0,0,0,0.2);
        z-index: 1000;
        animation: slideIn 0.3s ease-out;
    \x60;
    notification.textContent = message;
    
    // Add animation styles
    const style = document.createElement(\x27style\x27);
    style.textContent = \x60
        @keyframes slideIn \x7b
            from \x7b transform: translateX(100%); opacity: 0; \x7d
            to \x7b transform: translateX(0); opacity: 1; \x7d
        \x7d
    \x60;
    document.head.appendChild(style);
    
    // Add to page
    document.body.appendChild(notification);
    
    // Remove after 3 seconds
    setTimeout(() => \x7b
        notification.remove();
    \x7d, 3000);
\x7d"

/-- One `<url>` entry of the sitemap for a product (`generateSitemap`,
the body of the `store.products.map` callback). -/
def productSitemapEntry (baseUrl : String) (product : Product) : String :=
  "
    <url>
        <loc>"
    ++ baseUrl
    ++ "/product/"
    ++ (jsOrStr product.urlHandle product.id)
    ++ "</loc>
        <lastmod>"
    ++ product.updatedAtIso
    ++ "</lastmod>
        <changefreq>weekly</changefreq>
        <priority>0.7</priority>
    </url>
    "

/-- Model of `DeploymentService.generateSitemap`: the xml written to `sitemap.xml`.
Each `new Date().toISOString()` call is modelled by the single `nowIso`
rendering of the call-time clock. -/
def generateSitemapXml (envSuffix : Option String) (store : Store) (nowIso : String) : String :=
  let baseUrl := generateStoreUrl envSuffix store
  "<?xml version=\"1.0\" encoding=\"UTF-8\"?>
<urlset xmlns=\"http://www.sitemaps.org/schemas/sitemap/0.9\">
    <url>
        <loc>"
    ++ baseUrl
    ++ "</loc>
        <lastmod>"
    ++ nowIso
    ++ "</lastmod>
        <changefreq>daily</changefreq>
        <priority>1.0</priority>
    </url>
    <url>
        <loc>"
    ++ baseUrl
    ++ "/products</loc>
        <lastmod>"
    ++ nowIso
    ++ "</lastmod>
        <changefreq>daily</changefreq>
        <priority>0.8</priority>
    </url>
    <url>
        <loc>"
    ++ baseUrl
    ++ "/about</loc>
        <lastmod>"
    ++ nowIso
    ++ "</lastmod>
        <changefreq>monthly</changefreq>
        <priority>0.6</priority>
    </url>
    <url>
        <loc>"
    ++ baseUrl
    ++ "/contact</loc>
        <lastmod>"
    ++ nowIso
    ++ "</lastmod>
        <changefreq>monthly</changefreq>
        <priority>0.6</priority>
    </url>
    "
    ++ String.join (store.products.map (productSitemapEntry baseUrl))
    ++ "
</urlset>"

/-- Model of `DeploymentService.generateRobotsTxt`: the text written to `robots.txt`. -/
def generateRobotsTxt (envSuffix : Option String) (store : Store) : String :=
  "User-agent: *
Allow: /

Sitemap: "
    ++ (generateStoreUrl envSuffix store)
    ++ "/sitemap.xml"

/-- Model of `DeploymentService.generateStaticSite` as the mapping from
relative output path to written content, in the write order of the source:
home, products listing, per-product pages, cart, checkout, contact, about,
styles, scripts, sitemap, robots. `copyAssets` also creates an (empty)
`assets` directory: the `placeholder.jpg` copy source `src/assets` does not
exist in the repository, so its `ENOENT` is caught and only logged and no
asset file is produced. -/
def generateSiteFiles (envSuffix : Option String) (store : Store) (nowIso : String) :
    List (String × String) :=
  [("index.html", generateHomePageHtml envSuffix store),
   ("products.html", generateProductsPageHtml store)]
  ++ store.products.map
      (fun product =>
        ("product/" ++ (jsOrStr product.urlHandle product.id) ++ ".html",
         generateProductPageHtml store product))
  ++ [("cart.html", generateCartPageHtml store),
      ("checkout.html", generateCheckoutPageHtml store),
      ("contact.html", generateContactPageHtml store),
      ("about.html", generateAboutPageHtml store),
      ("styles.css", generateStylesCss store),
      ("scripts.js", generateScriptsJs store),
      ("sitemap.xml", generateSitemapXml envSuffix store nowIso),
      ("robots.txt", generateRobotsTxt envSuffix store)]

/-- Overwrite (or create) the build tree of one slug in the durable build
directory, as the sequence of `fs.writeFile` calls of `generateStaticSite`
materialises it under `builds/<store.slug>`. -/
def writeBuildTree (builds : List BuildTree) (slug : String) (files : List (String × String)) :
    List BuildTree :=
  match builds.find? (fun b => b.slug == slug) with
  | some _ => builds.map (fun b => if b.slug == slug then { b with files := files } else b)
  | none => builds ++ [{ slug := slug, files := files }]

/-- The value returned by a successful `deployStore` call
(`{ deployment, url, buildPath }`). -/
structure DeployOutcome where
  deploymentId : Nat
  url : String
  buildPath : String
deriving DecidableEq, Repr

/-- Model of `DeploymentService.deployStore(storeId, environment)`.

The source wraps the whole body in one `try`:
1. fetch the store snapshot (active products included); `throw new
   Error('Store not found')` when absent;
2. `prisma.deployment.create` with a fresh id, `version: this.generateVersion()`,
   `status: 'BUILDING'` and the config blob;
3. `prisma.store.update` setting `status: 'PUBLISHED', isDeployed: true`
   (before anything is rendered);
4. `generateStaticSite` (renders and writes the build tree; the external
   `fsFail` oracle decides whether any of its `fs` calls throws);
5. on success: `prisma.deployment.update` to SUCCESS with url/logs/deployedAt,
   `prisma.store.update` setting `deploymentUrl`, and a best-effort email
   notification whose failure is caught and only logged.

The `catch` block reads the variable `deployment`, but `deployment` is a
`const` declared inside the `try` block and is not in scope in the `catch`
block, so the first thing the handler itself does is raise
`ReferenceError: deployment is not defined`; consequently the
`status: 'FAILED'` update and the `throw error` re-throw after it are
unreachable, and every caught error surfaces to the caller as that
`ReferenceError`, with the deployment record (when one was created) left
in status BUILDING. -/
def deployStore (envSuffix : Option String) (db : DB) (storeId : String)
    (environment : String) (now : Nat) (nowIso : String) (fsFail : Option String) :
    Except JsError DeployOutcome × DB :=
  match findStore? db storeId with
  | none =>
      -- `throw new Error('Store not found')` is caught by the catch block,
      -- which itself raises the ReferenceError before it can re-throw.
      (Except.error (JsError.jsRefError "deployment is not defined"), db)
  | some store =>
      let deployment : Deployment :=
        { id := db.nextDeploymentId
          storeId := storeId
          version := generateVersion now
          status := DeploymentStatus.BUILDING
          url := none
          buildLogs := none
          config := { store := store, environment := environment, timestampMs := now }
          environment := environment
          createdAt := now
          deployedAt := none }
      let db1 : DB :=
        { db with deployments := db.deployments ++ [deployment]
                  nextDeploymentId := db.nextDeploymentId + 1 }
      let db2 := updateStoreById db1 storeId
        (fun s => { s with status := StoreStatus.PUBLISHED, isDeployed := true })
      match fsFail with
      | some _ =>
          -- `generateStaticSite` threw: the catch block raises the
          -- ReferenceError; the FAILED update never executes.
          (Except.error (JsError.jsRefError "deployment is not defined"), db2)
      | none =>
          let db3 : DB :=
            { db2 with builds :=
                writeBuildTree db2.builds store.slug (generateSiteFiles envSuffix store nowIso) }
          let url := generateStoreUrl envSuffix store
          let db4 := updateDeploymentById db3 deployment.id
            (fun d => { d with status := DeploymentStatus.SUCCESS
                               url := some url
                               deployedAt := some now
                               buildLogs := some "Build completed successfully" })
          let db5 := updateStoreById db4 storeId (fun s => { s with deploymentUrl := some url })
          (Except.ok { deploymentId := deployment.id, url := url,
                       buildPath := "builds/" ++ store.slug }, db5)

/-- Model of `DeploymentService.rollbackDeployment(storeId, version)`:
`prisma.deployment.findFirst` with store, version and SUCCESS status; throw
`Error('Deployment not found')` when absent; otherwise update only the
store's `deploymentUrl` to the found deployment's url. Nothing is rendered
or written to the build directory. -/
def rollbackDeployment (db : DB) (storeId : String) (version : String) :
    Except JsError Deployment × DB :=
  match db.deployments.find?
      (fun d => d.storeId == storeId && d.version == version
        && d.status == DeploymentStatus.SUCCESS) with
  | none => (Except.error (JsError.jsError "Deployment not found"), db)
  | some deployment =>
      (Except.ok deployment,
       updateStoreById db storeId (fun s => { s with deploymentUrl := deployment.url }))

/-- Split a character list at its last `'.'`: returns the part before and
after that dot, or `none` when no dot occurs. -/
def lastDotSplit : List Char → Option (List Char × List Char)
  | [] => none
  | c :: rest =>
      match lastDotSplit rest with
      | some (front, tld) => some (c :: front, tld)
      | none => if c = '.' then some ([], rest) else none

/-- ASCII `[a-zA-Z]`, the character class of the domain regex. -/
def isAsciiAlpha (c : Char) : Bool :=
  (('a' ≤ c) && (c ≤ 'z')) || (('A' ≤ c) && (c ≤ 'Z'))

/-- ASCII `[a-zA-Z0-9]`, the character class of the domain regex. -/
def isAsciiAlnum (c : Char) : Bool :=
  isAsciiAlpha c || (('0' ≤ c) && (c ≤ '9'))

/-- Model of `DeploymentService.isValidDomain`: the anchored regex
`/^[a-zA-Z0-9][a-zA-Z0-9-]{1,61}[a-zA-Z0-9]\.[a-zA-Z]{2,}$/`. Since the
part after the literal dot admits only letters, the dot of a matching
decomposition is necessarily the last dot of the string, so the regex is
equivalent to: split at the last dot; the front is 3 to 63 characters,
alphanumeric at both ends with `[a-zA-Z0-9-]` in between; the part after
the dot is at least 2 characters, all letters. -/
def isValidDomain (domain : String) : Bool :=
  match lastDotSplit domain.data with
  | none => false
  | some (front, tld) =>
      decide (3 ≤ front.length) && decide (front.length ≤ 63)
      && (match front.head?, front.getLast? with
          | some a, some b => isAsciiAlnum a && isAsciiAlnum b
          | _, _ => false)
      && ((front.drop 1).dropLast.all (fun c => isAsciiAlnum c || c == '-'))
      && decide (2 ≤ tld.length) && tld.all isAsciiAlpha

/-- Model of `DeploymentService.setupCustomDomain(storeId, domain)`:
validate the domain string (throw `Error('Invalid domain format')` before
touching the store table); `prisma.store.findFirst({ where: { customDomain:
domain } })` and throw `Error('Domain is already in use')` when a different
store holds it; otherwise `prisma.store.update` binding the domain and
return `{ domain, url: 'https://' + domain }` (Prisma itself rejects the
update when `storeId` matches no store). -/
def setupCustomDomain (db : DB) (storeId : String) (domain : String) :
    Except JsError (String × String) × DB :=
  if ¬ isValidDomain domain then
    (Except.error (JsError.jsError "Invalid domain format"), db)
  else
    match db.stores.find? (fun s => s.customDomain == some domain) with
    | some existingStore =>
        if existingStore.id ≠ storeId then
          (Except.error (JsError.jsError "Domain is already in use"), db)
        else if (findStore? db storeId).isSome then
          (Except.ok (domain, "https://" ++ domain),
           updateStoreById db storeId (fun s => { s with customDomain := some domain }))
        else
          (Except.error (JsError.jsError "Record to update not found."), db)
    | none =>
        if (findStore? db storeId).isSome then
          (Except.ok (domain, "https://" ++ domain),
           updateStoreById db storeId (fun s => { s with customDomain := some domain }))
        else
          (Except.error (JsError.jsError "Record to update not found."), db)

/-- Modelled from the spec: the typed error classes of
`src/middleware/errorHandler.js`, whose definition file is not part of the
sources (only its consumers are). Section 7 of the spec gives the taxonomy
NotFound / ValidationError / ConflictError / AuthorizationError / ... ;
the middleware and controllers in the sources construct `NotFoundError`,
`ValidationError`, `AuthorizationError`, `AuthenticationError` and plain
`Error` values, so those are the constructors modelled here, each carrying
its message. -/
inductive AppError where
  | notFoundError (msg : String)
  | validationError (msg : String)
  | authorizationError (msg : String)
  | authenticationError (msg : String)
  | plainError (msg : String)
deriving DecidableEq, Repr

/-- Classifier used to state claims about the error type: is a failure an
authorization-typed failure? -/
def isAuthorizationFailure : AppError → Bool
  | AppError.authorizationError _ => true
  | _ => false

/-- Model of the `verifyStoreOwnership` middleware of `src/middleware/auth.js`:
missing store id or store yields a plain `Error`; `ADMIN` and `SUPER_ADMIN`
pass for every store; a non-owner otherwise gets
`AuthorizationError('Access denied to this store')`. -/
def verifyStoreOwnership (db : DB) (user : User) (storeId : String) :
    Except AppError Unit :=
  match findStore? db storeId with
  | none => Except.error (AppError.plainError "Store not found")
  | some store =>
      if user.role = Role.ADMIN ∨ user.role = Role.SUPER_ADMIN then
        Except.ok ()
      else if store.userId ≠ user.id then
        Except.error (AppError.authorizationError "Access denied to this store")
      else
        Except.ok ()

/-- Model of the controller-side access check used by
`deploymentController.js` (`getDeploymentStatus`, `getDeploymentLogs`,
`deleteDeployment`, and the store-keyed handlers): the caller must be the
owning user or have role `ADMIN` exactly, otherwise the controller throws a
`ValidationError` with the given access-denied message. -/
def controllerAccessCheck (ownerUserId : String) (user : User) (deniedMsg : String) :
    Except AppError Unit :=
  if ownerUserId ≠ user.id ∧ user.role ≠ Role.ADMIN then
    Except.error (AppError.validationError deniedMsg)
  else
    Except.ok ()

/-- Model of `deploymentController.getDeploymentStatus`: look the deployment
up (with its store), `NotFoundError('Deployment not found')` when absent,
then the controller access check with
`ValidationError('Access denied to this deployment')`. The store lookup of
the Prisma `include` cannot fail because deployments are cascade-deleted
with their store; a dangling record would make the JavaScript access
`deployment.store.userId` fail, modelled as a plain error. -/
def getDeploymentStatusCtrl (db : DB) (user : User) (deploymentId : Nat) :
    Except AppError Deployment :=
  match findDeployment? db deploymentId with
  | none => Except.error (AppError.notFoundError "Deployment not found")
  | some deployment =>
      match findStore? db deployment.storeId with
      | none => Except.error (AppError.plainError "TypeError")
      | some store =>
          match controllerAccessCheck store.userId user "Access denied to this deployment" with
          | Except.error e => Except.error e
          | Except.ok _ => Except.ok deployment

/-- Model of `deploymentController.getDeploymentLogs`: identical lookup and
access check; on success returns the logs, status and completion time. -/
def getDeploymentLogsCtrl (db : DB) (user : User) (deploymentId : Nat) :
    Except AppError (Option String × DeploymentStatus × Option Nat) :=
  match findDeployment? db deploymentId with
  | none => Except.error (AppError.notFoundError "Deployment not found")
  | some deployment =>
      match findStore? db deployment.storeId with
      | none => Except.error (AppError.plainError "TypeError")
      | some store =>
          match controllerAccessCheck store.userId user "Access denied to this deployment" with
          | Except.error e => Except.error e
          | Except.ok _ => Except.ok (deployment.buildLogs, deployment.status, deployment.deployedAt)

/-- Model of `deploymentController.deleteDeployment`: lookup, access check
(again a `ValidationError` on denial), then `prisma.deployment.delete`;
the build artifact in the build directory is not touched. -/
def deleteDeploymentCtrl (db : DB) (user : User) (deploymentId : Nat) :
    Except AppError DB :=
  match findDeployment? db deploymentId with
  | none => Except.error (AppError.notFoundError "Deployment not found")
  | some deployment =>
      match findStore? db deployment.storeId with
      | none => Except.error (AppError.plainError "TypeError")
      | some store =>
          match controllerAccessCheck store.userId user "Access denied to this deployment" with
          | Except.error e => Except.error e
          | Except.ok _ =>
              Except.ok
                { db with deployments := db.deployments.filter (fun d => d.id ≠ deployment.id) }

/-- Model of the Joi query schema of route
`GET /stores/:storeId/deployments` (`src/routes/stores.js`):
`page: integer, min 1, default 1; limit: integer, min 1, max 100,
default 10`; a violation makes the `validate` middleware throw
`ValidationError('Validation failed')`, otherwise the validated (and
defaulted) values replace `req.query`. -/
def validateDeploymentsQuery (pageQ limitQ : Option Int) :
    Except AppError (Nat × Nat) :=
  let page := pageQ.getD 1
  let limit := limitQ.getD 10
  if page < 1 ∨ limit < 1 ∨ 100 < limit then
    Except.error (AppError.validationError "Validation failed")
  else
    Except.ok (page.toNat, limit.toNat)

/-- The newest-first order of `orderBy: { createdAt: 'desc' }`. -/
def newerOrSame (a b : Deployment) : Prop :=
  b.createdAt ≤ a.createdAt

instance : DecidableRel newerOrSame :=
  fun a b => Nat.decLe b.createdAt a.createdAt

instance : IsTotal Deployment newerOrSame :=
  ⟨fun a b => Nat.le_total b.createdAt a.createdAt⟩

instance : IsTrans Deployment newerOrSame :=
  ⟨fun _ _ _ h1 h2 => Nat.le_trans h2 h1⟩

/-- Model of `orderBy: { createdAt: 'desc' }` on a deployment list: a stable
sort by creation time, newest first. -/
def sortByCreatedAtDesc (l : List Deployment) : List Deployment :=
  List.insertionSort newerOrSame l

/-- The pagination block of the `getStoreDeployments` response. -/
structure Pagination where
  page : Nat
  limit : Nat
  total : Nat
  pages : Nat
deriving DecidableEq, Repr

/-- Model of the data computation of `deploymentController.getStoreDeployments`
after validation and the ownership checks: `findMany` on the store's
deployments ordered newest-first with `skip: (page - 1) * limit` and
`take: limit`, a `count` of all of the store's deployments, and
`pages: Math.ceil(total / limit)` (as natural ceiling division, exact for
these magnitudes). -/
def getStoreDeployments (db : DB) (storeId : String) (page limit : Nat) :
    List Deployment × Pagination :=
  let sorted := sortByCreatedAtDesc (db.deployments.filter (fun d => d.storeId == storeId))
  let total := sorted.length
  (((sorted.drop ((page - 1) * limit)).take limit),
   { page := page, limit := limit, total := total,
     pages := (total + limit - 1) / limit })

/-- Model of the full route `GET /stores/:storeId/deployments`: the
`verifyStoreOwnership` middleware, then the Joi query validation, then the
controller (which re-checks store existence with `NotFoundError` and
ownership with a `ValidationError` — both redundant behind the middleware
except that the controller accepts only role `ADMIN`). -/
def getStoreDeploymentsRoute (db : DB) (user : User) (storeId : String)
    (pageQ limitQ : Option Int) : Except AppError (List Deployment × Pagination) :=
  match verifyStoreOwnership db user storeId with
  | Except.error e => Except.error e
  | Except.ok _ =>
      match validateDeploymentsQuery pageQ limitQ with
      | Except.error e => Except.error e
      | Except.ok (page, limit) =>
          match findStore? db storeId with
          | none => Except.error (AppError.notFoundError "Store not found")
          | some store =>
              match controllerAccessCheck store.userId user "Access denied to this store" with
              | Except.error e => Except.error e
              | Except.ok _ => Except.ok (getStoreDeployments db storeId page limit)

/-- One step of parsing a decimal digit list, most significant digit first. -/
def digStep (a : Nat) (c : Char) : Nat :=
  a * 10 + (c.toNat - 48)

/-- Parse a non-empty all-decimal-digit character list as a natural number. -/
def parseDigits (cs : List Char) : Option Nat :=
  if cs ≠ [] ∧ cs.all Char.isDigit then some (cs.foldl digStep 0) else none

/-- Decode the millisecond clock embedded in a `generateVersion` label
(`v` followed by the decimal digits of `Date.now()`). -/
def versionTimeMs (v : String) : Option Nat :=
  match v.data with
  | 'v' :: rest => parseDigits rest
  | _ => none

theorem foldl_digStep_shift (l : List Char) :
    ∀ a : Nat, l.foldl digStep a = a * 10 ^ l.length + l.foldl digStep 0 := by
  induction l with
  | nil => intro a; simp
  | cons c l ih =>
      intro a
      simp only [List.foldl_cons, List.length_cons]
      rw [ih (digStep a c), ih (digStep 0 c)]
      simp only [digStep]
      ring

theorem digitChar_lt10_isDigit : ∀ n : Nat, n < 10 → (Nat.digitChar n).isDigit = true := by
  decide

theorem digitChar_lt10_val : ∀ n : Nat, n < 10 → (Nat.digitChar n).toNat - 48 = n := by
  decide

theorem toDigitsCore_spec :
    ∀ (f n : Nat) (ds : List Char), 1 ≤ f → n < 10 ^ f →
      ∃ pre : List Char,
        Nat.toDigitsCore 10 f n ds = pre ++ ds ∧ pre ≠ [] ∧
        pre.all Char.isDigit = true ∧ pre.foldl digStep 0 = n := by
  intro f
  induction f with
  | zero => intro n ds h; omega
  | succ f ih =>
      intro n ds _ hn
      by_cases hdiv : n / 10 = 0
      · refine ⟨[Nat.digitChar (n % 10)], ?_, by simp, ?_, ?_⟩
        · simp [Nat.toDigitsCore, hdiv]
        · simp [List.all, digitChar_lt10_isDigit (n % 10) (Nat.mod_lt _ (by norm_num))]
        · have hn10 : n < 10 := by omega
          have hev : n % 10 = n := by omega
          simp [digStep, hev, digitChar_lt10_val n hn10]
      · have hf1 : 1 ≤ f := by
          rcases Nat.eq_zero_or_pos f with h0 | h1
          · subst h0; simp [pow_succ, pow_zero] at hn; omega
          · exact h1
        have hlt : n / 10 < 10 ^ f := by
          rw [Nat.div_lt_iff_lt_mul (by norm_num : (0 : Nat) < 10)]
          calc n < 10 ^ (f + 1) := hn
            _ = 10 ^ f * 10 := by rw [pow_succ]
        obtain ⟨pre, heq, hne, hdig, hval⟩ :=
          ih (n / 10) (Nat.digitChar (n % 10) :: ds) hf1 hlt
        refine ⟨pre ++ [Nat.digitChar (n % 10)], ?_, by simp, ?_, ?_⟩
        · have : Nat.toDigitsCore 10 (f + 1) n ds
              = Nat.toDigitsCore 10 f (n / 10) (Nat.digitChar (n % 10) :: ds) := by
            simp [Nat.toDigitsCore, hdiv]
          rw [this, heq, List.append_assoc]
          simp
        · have hmod : n % 10 < 10 := Nat.mod_lt _ (by norm_num)
          simp [List.all_append, hdig, List.all,
            digitChar_lt10_isDigit (n % 10) hmod]
        · have hmod : n % 10 < 10 := Nat.mod_lt _ (by norm_num)
          rw [List.foldl_append, hval]
          simp [digStep, digitChar_lt10_val (n % 10) hmod]
          omega

theorem parseDigits_toDigits (n : Nat) :
    parseDigits (Nat.toDigits 10 n) = some n := by
  have hlt : n < 10 ^ (n + 1) := by
    calc n < 2 ^ n := Nat.lt_two_pow n
      _ ≤ 10 ^ n := Nat.pow_le_pow_left (by norm_num) n
      _ ≤ 10 ^ (n + 1) := Nat.pow_le_pow_right (by norm_num) (Nat.le_succ n)
  obtain ⟨pre, heq, hne, hdig, hval⟩ :=
    toDigitsCore_spec (n + 1) n [] (Nat.le_add_left 1 n) hlt
  unfold Nat.toDigits
  rw [heq, List.append_nil]
  simp [parseDigits, hne, hdig, hval]

/-- Round-trip: the version label of a deployment at clock `t` decodes to
`t` again. -/
theorem versionTimeMs_generateVersion (t : Nat) :
    versionTimeMs (generateVersion t) = some t := by
  have hdata : (generateVersion t).data = 'v' :: Nat.toDigits 10 t := by
    show (("v" : String) ++ Nat.repr t).data = _
    rw [String.data_append]
    rfl
  unfold versionTimeMs
  rw [hdata]
  exact parseDigits_toDigits t

/-- Distinct clocks yield distinct version labels. -/
theorem generateVersion_inj {t1 t2 : Nat}
    (h : generateVersion t1 = generateVersion t2) : t1 = t2 := by
  have := versionTimeMs_generateVersion t1
  rw [h, versionTimeMs_generateVersion t2] at this
  exact (Option.some.injEq _ _ ▸ this.symm)

theorem find?_map_update (l : List Store) (sid : String) (f : Store → Store)
    (hf : ∀ s, (f s).id = s.id) :
    (l.map (fun s => if s.id == sid then f s else s)).find? (fun s => s.id == sid)
      = (l.find? (fun s => s.id == sid)).map f := by
  induction l with
  | nil => rfl
  | cons s l ih =>
      cases hb : (s.id == sid) with
      | true =>
          have h2 : ((f s).id == sid) = true := by rw [hf s]; exact hb
          have hmap : (s :: l).map (fun s => if s.id == sid then f s else s)
              = f s :: l.map (fun s => if s.id == sid then f s else s) := by
            simp only [List.map_cons]
            rw [if_pos hb]
          rw [hmap, @List.find?_cons_of_pos _ (fun s => s.id == sid) (f s) _ h2,
            @List.find?_cons_of_pos _ (fun s => s.id == sid) s _ hb, Option.map_some']
      | false =>
          have hnb : ¬ ((s.id == sid) = true) := by simp [hb]
          have hmap : (s :: l).map (fun s => if s.id == sid then f s else s)
              = s :: l.map (fun s => if s.id == sid then f s else s) := by
            simp only [List.map_cons]
            rw [if_neg hnb]
          rw [hmap, @List.find?_cons_of_neg _ (fun s => s.id == sid) s _ hnb,
            @List.find?_cons_of_neg _ (fun s => s.id == sid) s _ hnb, ih]

/-- Looking the updated store up after `updateStoreById` (for an update that
does not change the id) yields the updated record. -/
theorem findStore?_updateStoreById (db : DB) (sid : String) (f : Store → Store)
    (hf : ∀ s, (f s).id = s.id) :
    findStore? (updateStoreById db sid f) sid = (findStore? db sid).map f :=
  find?_map_update db.stores sid f hf

theorem map_update_id (l : List Store) (sid : String) (f : Store → Store)
    (h : ∀ s ∈ l, s.id = sid → f s = s) :
    l.map (fun s => if s.id == sid then f s else s) = l := by
  induction l with
  | nil => rfl
  | cons s l ih =>
      have htl := ih (fun t ht hts => h t (List.mem_cons_of_mem s ht) hts)
      cases hb : (s.id == sid) with
      | true =>
          have hs : s.id = sid := by simpa using hb
          have h1 : (if (s.id == sid) = true then f s else s) = s := by
            simp [hb, h s (List.mem_cons_self s l) hs]
          simp only [List.map_cons, h1, htl]
      | false =>
          have h1 : (if (s.id == sid) = true then f s else s) = s := by simp [hb]
          simp only [List.map_cons, h1, htl]

theorem string_foldl_append (l : List String) :
    ∀ a : String, l.foldl (· ++ ·) a = a ++ l.foldl (· ++ ·) "" := by
  induction l with
  | nil => intro a; simp [List.foldl]
  | cons s l ih =>
      intro a
      simp only [List.foldl]
      rw [ih (a ++ s), ih ("" ++ s)]
      rw [String.empty_append, String.append_assoc]

theorem string_join_cons (s : String) (l : List String) :
    String.join (s :: l) = s ++ String.join l := by
  show (s :: l).foldl (· ++ ·) "" = s ++ l.foldl (· ++ ·) ""
  simp only [List.foldl]
  rw [string_foldl_append l ("" ++ s), String.empty_append]

/-- Number of positions of `s` at which the pattern `pat` occurs (as a
contiguous substring starting at that position). -/
def countOccs (pat : List Char) : List Char → Nat
  | [] => 0
  | c :: cs => (if pat.isPrefixOf (c :: cs) then 1 else 0) + countOccs pat cs

/-- No suffix of `a` that is shorter than `pat` is a prefix of `pat`: no
occurrence of `pat` that starts inside `a` can spill over into whatever is
appended after `a`. -/
def tailClear (pat a : List Char) : Bool :=
  (List.range a.length).all
    (fun i => decide (pat.length ≤ (a.drop i).length) || !((a.drop i).isPrefixOf pat))

theorem tailClear_iff (pat a : List Char) :
    tailClear pat a = true ↔
      ∀ i, i < a.length → (a.drop i).length < pat.length → ¬ (a.drop i) <+: pat := by
  unfold tailClear
  rw [List.all_eq_true]
  constructor
  · intro h i hi hlen hpre
    have hx := h i (List.mem_range.mpr hi)
    rcases Bool.or_eq_true_iff.mp hx with h1 | h1
    · exact absurd (of_decide_eq_true h1) (Nat.not_le_of_lt hlen)
    · rw [Bool.not_eq_true'] at h1
      rw [← List.isPrefixOf_iff_prefix] at hpre
      rw [hpre] at h1
      cases h1
  · intro h i hi
    rcases Nat.lt_or_ge (a.drop i).length pat.length with hlen | hlen
    · have hnp := h i (List.mem_range.mp hi) hlen
      have hb : (a.drop i).isPrefixOf pat = false := by
        cases hx : (a.drop i).isPrefixOf pat with
        | false => rfl
        | true => exact absurd (List.isPrefixOf_iff_prefix.mp hx) hnp
      simp [hb]
    · have hle : pat.length ≤ a.length - i := by
        rw [List.length_drop] at hlen
        exact hlen
      simp [hle]

theorem prefix_append_iff_of_le {pat x : List Char} (b : List Char)
    (hlen : pat.length ≤ x.length) : pat <+: x ++ b ↔ pat <+: x := by
  constructor
  · intro h
    rw [List.prefix_iff_eq_take] at h ⊢
    rw [h, List.take_append_eq_append_take]
    have h0 : pat.length - x.length = 0 := Nat.sub_eq_zero_of_le hlen
    simp [h0]
  · intro h
    exact h.trans (List.prefix_append x b)

theorem countOccs_append (pat : List Char) :
    ∀ (a b : List Char), tailClear pat a = true →
      countOccs pat (a ++ b) = countOccs pat a + countOccs pat b := by
  intro a
  induction a with
  | nil => intro b _; simp [countOccs]
  | cons c cs ih =>
      intro b ha
      have hcs : tailClear pat cs = true := by
        rw [tailClear_iff] at ha ⊢
        intro i hi hlen hpre
        refine ha (i + 1) (by simpa using Nat.succ_lt_succ hi) ?_ ?_
        · simpa using hlen
        · simpa using hpre
      have harec := ih b hcs
      show (if pat.isPrefixOf (c :: (cs ++ b)) then 1 else 0) + countOccs pat (cs ++ b)
        = ((if pat.isPrefixOf (c :: cs) then 1 else 0) + countOccs pat cs) + countOccs pat b
      rw [harec]
      have hiff' : (pat <+: (c :: cs) ++ b) ↔ (pat <+: c :: cs) := by
        rcases Nat.lt_or_ge (c :: cs).length pat.length with hlen | hlen
        · constructor
          · intro hp
            exfalso
            have hnot : ¬ (c :: cs) <+: pat := by
              have hdrop := (tailClear_iff pat (c :: cs)).mp ha 0 (by simp) (by simpa using hlen)
              simpa using hdrop
            exact hnot
              (List.prefix_of_prefix_length_le (List.prefix_append _ _) hp (Nat.le_of_lt hlen))
          · intro hp
            exfalso
            have := hp.length_le
            omega
        · exact prefix_append_iff_of_le b hlen
      have hiff : pat.isPrefixOf (c :: (cs ++ b)) = pat.isPrefixOf (c :: cs) := by
        rw [Bool.eq_iff_iff, List.isPrefixOf_iff_prefix, List.isPrefixOf_iff_prefix]
        simpa using hiff'
      rw [hiff]
      omega

theorem countOccs_eq_zero_of_head_not_mem {c0 : Char} {pat : List Char}
    (hpat : pat.head? = some c0) :
    ∀ {f : List Char}, c0 ∉ f → countOccs pat f = 0 := by
  intro f
  induction f with
  | nil => intro _; rfl
  | cons c cs ih =>
      intro hmem
      obtain ⟨pt, rfl⟩ : ∃ pt, pat = c0 :: pt := by
        cases pat with
        | nil => cases hpat
        | cons a l =>
            cases hpat
            exact ⟨l, rfl⟩
      have hpre : (c0 :: pt).isPrefixOf (c :: cs) = false := by
        cases hx : (c0 :: pt).isPrefixOf (c :: cs) with
        | false => rfl
        | true =>
            have := (List.cons_prefix_cons.mp (List.isPrefixOf_iff_prefix.mp hx)).1
            exact absurd (this ▸ List.mem_cons_self c cs) hmem
      show (if (c0 :: pt).isPrefixOf (c :: cs) then 1 else 0) + countOccs (c0 :: pt) cs = 0
      rw [hpre]
      simpa using ih (fun hc => hmem (List.mem_cons_of_mem c hc))

theorem tailClear_of_head_not_mem {c0 : Char} {pat : List Char}
    (hpat : pat.head? = some c0) {f : List Char} (hmem : c0 ∉ f) :
    tailClear pat f = true := by
  rw [tailClear_iff]
  intro i hi _ hpre
  obtain ⟨pt, rfl⟩ : ∃ pt, pat = c0 :: pt := by
    cases pat with
    | nil => cases hpat
    | cons a l =>
        cases hpat
        exact ⟨l, rfl⟩
  have hne : f.drop i ≠ [] := by
    intro hc
    have := congrArg List.length hc
    rw [List.length_drop] at this
    simp at this
    omega
  obtain ⟨d, rest, hdr⟩ := List.exists_cons_of_ne_nil hne
  have hd0 : d = c0 := by
    rw [hdr] at hpre
    exact (List.cons_prefix_cons.mp hpre).1
  have hdmem : d ∈ f := by
    have hsub := List.drop_sublist i f
    rw [hdr] at hsub
    exact hsub.subset (List.mem_cons_self d rest)
  exact hmem (hd0 ▸ hdmem)

theorem tailClear_append_right (pat x y : List Char)
    (hy : tailClear pat y = true) (hlen : pat.length ≤ y.length + 1) :
    tailClear pat (x ++ y) = true := by
  rw [tailClear_iff] at hy ⊢
  intro i hi hdlen hpre
  rw [List.length_append] at hi
  rw [List.length_drop, List.length_append] at hdlen
  have hix : x.length ≤ i := by omega
  have hdrop : (x ++ y).drop i = y.drop (i - x.length) := by
    conv_lhs => rw [show i = x.length + (i - x.length) by omega]
    exact List.drop_append _
  rw [hdrop] at hpre
  refine hy (i - x.length) (by omega) ?_ hpre
  rw [List.length_drop]
  omega

/-- Sample theme for concrete evaluations. -/
def sampleTheme : Theme :=
  { primaryColor := none, secondaryColor := none }

/-- Sample active product with a url handle. -/
def sampleProduct1 : Product :=
  { id := "p1", name := "Widget", description := some "A useful widget",
    shortDescription := none, metaDescription := none, price := "9.99",
    images := ["https://img.example/widget.jpg"], urlHandle := some "widget",
    updatedAtIso := "2024-01-01T00:00:00.000Z" }

/-- Sample active product without a url handle (falls back to its id). -/
def sampleProduct2 : Product :=
  { id := "p2", name := "Gadget", description := none,
    shortDescription := some "A shiny gadget", metaDescription := none, price := "19.99",
    images := [], urlHandle := none,
    updatedAtIso := "2024-01-02T00:00:00.000Z" }

/-- Sample store owned by user alice, not yet deployed. -/
def sampleStore : Store :=
  { id := "s1", name := "Acme", slug := "acme", customDomain := none,
    userId := "alice", description := some "Great goods", metaTitle := none,
    metaDescription := none, theme := sampleTheme, status := StoreStatus.DRAFT,
    isDeployed := false, deploymentUrl := none,
    products := [sampleProduct1, sampleProduct2] }

/-- Sample store of another user with a custom domain already bound. -/
def otherStore : Store :=
  { id := "s2", name := "Bravo", slug := "bravo", customDomain := some "taken-shop.com",
    userId := "carol", description := none, metaTitle := none,
    metaDescription := none, theme := sampleTheme, status := StoreStatus.PUBLISHED,
    isDeployed := true, deploymentUrl := some "https://taken-shop.com",
    products := [] }

/-- Sample store of alice without any products. -/
def emptyStore : Store :=
  { id := "s3", name := "Empty", slug := "empty", customDomain := none,
    userId := "alice", description := none, metaTitle := none,
    metaDescription := none, theme := sampleTheme, status := StoreStatus.DRAFT,
    isDeployed := false, deploymentUrl := none, products := [] }

/-- Sample database without any deployment records. -/
def sampleDB : DB :=
  { stores := [sampleStore, otherStore, emptyStore], deployments := [],
    nextDeploymentId := 0, builds := [] }

/-- Deployment-record literal for the sample database. -/
def mkSampleDeployment (i : Nat) (v : String) (st : DeploymentStatus)
    (u : Option String) (t : Nat) : Deployment :=
  { id := i, storeId := "s1", version := v, status := st, url := u, buildLogs := none,
    config := { store := sampleStore, environment := "production", timestampMs := t },
    environment := "production", createdAt := t, deployedAt := none }

/-- Sample database holding two past deployments of store s1. -/
def deployedDB : DB :=
  { stores := [sampleStore, otherStore, emptyStore],
    deployments :=
      [mkSampleDeployment 0 "v100" DeploymentStatus.SUCCESS
          (some "https://acme.stores.buildcart.ai") 100,
       mkSampleDeployment 1 "v200" DeploymentStatus.FAILED none 200],
    nextDeploymentId := 2, builds := [] }

/-- The store owner. -/
def aliceUser : User := { id := "alice", role := Role.USER }

/-- An unrelated non-admin user. -/
def bobUser : User := { id := "bob", role := Role.USER }

/-- C1: a deploy of a valid store whose render/write step throws creates
exactly one new Deployment record, but — against the claim — the record is
left in the non-terminal BUILDING status when the call returns (by
exception): the catch block's own `if (deployment)` reads an out-of-scope
`const` and raises a ReferenceError before the `status: 'FAILED'` update it
was written to perform can run. -/
theorem c1_failed_deploy_leaves_building_record :
    (deployStore none sampleDB "s1" "production" 1000 "2024-01-02T00:00:00.000Z"
        (some "EACCES: permission denied")).1
      = Except.error (JsError.jsRefError "deployment is not defined")
    ∧ ((deployStore none sampleDB "s1" "production" 1000 "2024-01-02T00:00:00.000Z"
        (some "EACCES: permission denied")).2.deployments.map Deployment.status)
      = [DeploymentStatus.BUILDING]
    ∧ ((deployStore none sampleDB "s1" "production" 1000 "2024-01-02T00:00:00.000Z"
        (some "EACCES: permission denied")).2.deployments.map Deployment.id)
      = [0] := by
  decide

/-- C2, counterexample: on a render/write failure the call does not return
normally with a FAILED record — it propagates an error (a ReferenceError)
and the state holds no FAILED record at all. -/
theorem c2_deploy_failure_returns_error_not_failed_record :
    (deployStore none sampleDB "s1" "production" 1000 "2024-01-02T00:00:00.000Z"
        (some "render failed")).1
      = Except.error (JsError.jsRefError "deployment is not defined")
    ∧ ((deployStore none sampleDB "s1" "production" 1000 "2024-01-02T00:00:00.000Z"
        (some "render failed")).2.deployments.filter
          (fun d => d.status == DeploymentStatus.FAILED))
      = [] := by
  decide

/-- C2, amended: every failure inside `deployStore` — store not found before
any record exists, or a snapshot/render/write error after the record was
created — is caught by the orchestrator's catch block, which itself raises
`ReferenceError: deployment is not defined`; no FAILED record is ever
written (the record, when created, stays BUILDING), and the call always
propagates an error to the caller instead of returning normally. -/
theorem c2_amended_deploy_errors_propagate (envSuffix : Option String) (db : DB)
    (storeId environment : String) (now : Nat) (nowIso : String) (msg : String) :
    (findStore? db storeId = none →
       deployStore envSuffix db storeId environment now nowIso (some msg)
         = (Except.error (JsError.jsRefError "deployment is not defined"), db)
       ∧ deployStore envSuffix db storeId environment now nowIso none
         = (Except.error (JsError.jsRefError "deployment is not defined"), db))
    ∧ (∀ st, findStore? db storeId = some st →
        (deployStore envSuffix db storeId environment now nowIso (some msg)).1
          = Except.error (JsError.jsRefError "deployment is not defined")
        ∧ ((deployStore envSuffix db storeId environment now nowIso (some msg)).2.deployments.map
              Deployment.status)
          = db.deployments.map Deployment.status ++ [DeploymentStatus.BUILDING]) := by
  constructor
  · intro h
    constructor <;> simp [deployStore, h]
  · intro st h
    constructor
    · simp [deployStore, h]
    · simp [deployStore, h, updateStoreById]

/-- Witness for the amended C2 theorem at concrete inputs. -/
theorem c2_amended_deploy_errors_propagate_witness :
    deployStore none sampleDB "nope" "production" 5 "t" (some "boom")
      = (Except.error (JsError.jsRefError "deployment is not defined"), sampleDB)
    ∧ (deployStore none sampleDB "s1" "production" 5 "t" (some "boom")).1
      = Except.error (JsError.jsRefError "deployment is not defined") :=
  ⟨((c2_amended_deploy_errors_propagate none sampleDB "nope" "production" 5 "t" "boom").1
      (by decide)).1,
   ((c2_amended_deploy_errors_propagate none sampleDB "s1" "production" 5 "t" "boom").2
      sampleStore (by decide)).1⟩

/-- C3, counterexample: a deploy that fails during render leaves the
deployment without SUCCESS, yet the store's `isDeployed` flag has changed
from `false` to `true` and its `status` from DRAFT to PUBLISHED — the store
fields are not left unchanged by a failed deployment. -/
theorem c3_failed_deploy_changes_store_fields :
    (findStore? sampleDB "s1").map Store.isDeployed = some false
    ∧ (findStore? sampleDB "s1").map Store.status = some StoreStatus.DRAFT
    ∧ ((deployStore none sampleDB "s1" "production" 1000 "t" (some "boom")).1
        = Except.error (JsError.jsRefError "deployment is not defined"))
    ∧ ((deployStore none sampleDB "s1" "production" 1000 "t" (some "boom")).2.deployments.map
          Deployment.status) = [DeploymentStatus.BUILDING]
    ∧ (findStore? ((deployStore none sampleDB "s1" "production" 1000 "t" (some "boom")).2)
        "s1").map Store.isDeployed = some true
    ∧ (findStore? ((deployStore none sampleDB "s1" "production" 1000 "t" (some "boom")).2)
        "s1").map Store.status = some StoreStatus.PUBLISHED := by
  decide

/-- C3, amended: a deploy call that fails after the record was created
leaves the store's `deploymentUrl` (and every other field except `status`
and `isDeployed`) unchanged, but `status` and `isDeployed` were already set
to PUBLISHED/`true` before rendering, so they are changed even though the
deployment did not succeed; only a SUCCESS deployment updates
`deploymentUrl`. -/
theorem c3_amended_failed_deploy_updates_status_before_render
    (envSuffix : Option String) (db : DB) (storeId environment : String)
    (now : Nat) (nowIso : String) (msg : String) (st : Store)
    (h : findStore? db storeId = some st) :
    findStore? ((deployStore envSuffix db storeId environment now nowIso (some msg)).2) storeId
      = some { st with status := StoreStatus.PUBLISHED, isDeployed := true } := by
  have hstate : (deployStore envSuffix db storeId environment now nowIso (some msg)).2
      = updateStoreById
          { db with
              deployments := db.deployments ++
                [{ id := db.nextDeploymentId, storeId := storeId,
                   version := generateVersion now, status := DeploymentStatus.BUILDING,
                   url := none, buildLogs := none,
                   config := { store := st, environment := environment, timestampMs := now },
                   environment := environment, createdAt := now, deployedAt := none }]
              nextDeploymentId := db.nextDeploymentId + 1 }
          storeId
          (fun s => { s with status := StoreStatus.PUBLISHED, isDeployed := true }) := by
    simp [deployStore, h]
  rw [hstate,
    findStore?_updateStoreById _ storeId
      (fun s => { s with status := StoreStatus.PUBLISHED, isDeployed := true })
      (fun s => rfl)]
  have h2 : findStore?
      { db with
          deployments := db.deployments ++
            [{ id := db.nextDeploymentId, storeId := storeId,
               version := generateVersion now, status := DeploymentStatus.BUILDING,
               url := none, buildLogs := none,
               config := { store := st, environment := environment, timestampMs := now },
               environment := environment, createdAt := now, deployedAt := none }]
          nextDeploymentId := db.nextDeploymentId + 1 }
      storeId = some st := h
  rw [h2, Option.map_some']

/-- Witness for the amended C3 theorem at a concrete input. -/
theorem c3_amended_failed_deploy_updates_status_before_render_witness :
    findStore? ((deployStore none sampleDB "s1" "production" 7 "t" (some "disk full")).2) "s1"
      = some { sampleStore with status := StoreStatus.PUBLISHED, isDeployed := true } :=
  c3_amended_failed_deploy_updates_status_before_render none sampleDB "s1" "production" 7 "t"
    "disk full" sampleStore (by decide)

/-- C4: `setupCustomDomain(storeId, domain)` fails on a domain rejected by
the syntactic check before any store update is attempted (the state is
returned unchanged); fails with the domain-conflict error when a different
store already holds the domain (state unchanged); otherwise binds the
domain to the store and returns `https://` ++ domain; and a store
re-binding its own already-bound domain succeeds idempotently, leaving the
state exactly as it was. -/
theorem c4_setupCustomDomain_contract (db : DB) (storeId domain : String) :
    (isValidDomain domain = false →
      setupCustomDomain db storeId domain
        = (Except.error (JsError.jsError "Invalid domain format"), db))
    ∧ (∀ ex, isValidDomain domain = true →
        db.stores.find? (fun s => s.customDomain == some domain) = some ex →
        ex.id ≠ storeId →
        setupCustomDomain db storeId domain
          = (Except.error (JsError.jsError "Domain is already in use"), db))
    ∧ (∀ st, isValidDomain domain = true →
        db.stores.find? (fun s => s.customDomain == some domain) = none →
        findStore? db storeId = some st →
        (setupCustomDomain db storeId domain).1 = Except.ok (domain, "https://" ++ domain)
        ∧ findStore? (setupCustomDomain db storeId domain).2 storeId
            = some { st with customDomain := some domain })
    ∧ ((db.stores.map Store.id).Nodup →
        ∀ st, isValidDomain domain = true →
        db.stores.find? (fun s => s.customDomain == some domain) = some st →
        st.id = storeId →
        setupCustomDomain db storeId domain
          = (Except.ok (domain, "https://" ++ domain), db)) := by
  refine ⟨?_, ?_, ?_, ?_⟩
  · intro hv
    simp [setupCustomDomain, hv]
  · intro ex hv hfind hne
    simp [setupCustomDomain, hv, hfind, hne]
  · intro st hv hfind hst
    have hsome : (findStore? db storeId).isSome := by rw [hst]; rfl
    constructor
    · simp [setupCustomDomain, hv, hfind, hsome]
    · have hstate : (setupCustomDomain db storeId domain).2
          = updateStoreById db storeId (fun s => { s with customDomain := some domain }) := by
        simp [setupCustomDomain, hv, hfind, hsome]
      rw [hstate,
        findStore?_updateStoreById _ storeId
          (fun s => { s with customDomain := some domain }) (fun s => rfl),
        hst, Option.map_some']
  · intro hnd st hv hfind hid
    have hmem : st ∈ db.stores := List.mem_of_find?_eq_some hfind
    have hdom : st.customDomain = some domain := by
      have := List.find?_some hfind
      simpa using this
    have hsome : (findStore? db storeId).isSome := by
      unfold findStore?
      rw [List.find?_isSome]
      exact ⟨st, hmem, by simp [hid]⟩
    have hmap : db.stores.map
        (fun s => if s.id == storeId then { s with customDomain := some domain } else s)
        = db.stores := by
      apply map_update_id
      intro s hs hsid
      have hseq : s = st := by
        apply List.inj_on_of_nodup_map hnd hs hmem
        rw [hsid, hid]
      subst hseq
      rw [← hdom]
    have hndne : ¬ st.id ≠ storeId := by simp [hid]
    have hfinal : updateStoreById db storeId (fun s => { s with customDomain := some domain })
        = db := by
      unfold updateStoreById
      rw [hmap]
    simp [setupCustomDomain, hv, hfind, hndne, hsome, hfinal]

/-- Witness for C4 at concrete inputs: an invalid domain, a conflicting
domain held by another store, a fresh bind, and an idempotent re-bind. -/
theorem c4_setupCustomDomain_contract_witness :
    setupCustomDomain sampleDB "s1" "bad"
      = (Except.error (JsError.jsError "Invalid domain format"), sampleDB)
    ∧ setupCustomDomain sampleDB "s1" "taken-shop.com"
      = (Except.error (JsError.jsError "Domain is already in use"), sampleDB)
    ∧ (setupCustomDomain sampleDB "s1" "myshop.example").1
      = Except.ok ("myshop.example", "https://" ++ "myshop.example")
    ∧ setupCustomDomain sampleDB "s2" "taken-shop.com"
      = (Except.ok ("taken-shop.com", "https://" ++ "taken-shop.com"), sampleDB) :=
  ⟨(c4_setupCustomDomain_contract sampleDB "s1" "bad").1 (by decide),
   (c4_setupCustomDomain_contract sampleDB "s1" "taken-shop.com").2.1 otherStore
     (by decide) (by decide) (by decide),
   ((c4_setupCustomDomain_contract sampleDB "s1" "myshop.example").2.2.1 sampleStore
     (by decide) (by decide) (by decide)).1,
   (c4_setupCustomDomain_contract sampleDB "s2" "taken-shop.com").2.2.2 (by decide) otherStore
     (by decide) (by decide) (by decide)⟩

/-- C5: `rollbackDeployment(storeId, version)` with no matching SUCCESS
deployment fails with the not-found error and leaves the whole state (in
particular the store's `deploymentUrl`) unchanged; with a matching SUCCESS
deployment it returns it and updates only the store's `deploymentUrl` to
that deployment's url — the deployment table and the build directory are
untouched (no re-render, no re-write). -/
theorem c5_rollback_contract (db : DB) (storeId version : String) :
    (db.deployments.find?
        (fun d => d.storeId == storeId && d.version == version
          && d.status == DeploymentStatus.SUCCESS) = none →
      rollbackDeployment db storeId version
        = (Except.error (JsError.jsError "Deployment not found"), db))
    ∧ (∀ d st,
        db.deployments.find?
          (fun d => d.storeId == storeId && d.version == version
            && d.status == DeploymentStatus.SUCCESS) = some d →
        findStore? db storeId = some st →
        (rollbackDeployment db storeId version).1 = Except.ok d
        ∧ d.storeId = storeId ∧ d.version = version ∧ d.status = DeploymentStatus.SUCCESS
        ∧ findStore? (rollbackDeployment db storeId version).2 storeId
            = some { st with deploymentUrl := d.url }
        ∧ (rollbackDeployment db storeId version).2.deployments = db.deployments
        ∧ (rollbackDeployment db storeId version).2.builds = db.builds) := by
  constructor
  · intro h
    simp [rollbackDeployment, h]
  · intro d st hfind hst
    have hpred := List.find?_some hfind
    have hps : d.storeId = storeId := by
      have := (Bool.and_eq_true _ _).mp hpred
      have := (Bool.and_eq_true _ _).mp this.1
      simpa using this.1
    have hpv : d.version = version := by
      have := (Bool.and_eq_true _ _).mp hpred
      have := (Bool.and_eq_true _ _).mp this.1
      simpa using this.2
    have hpsu : d.status = DeploymentStatus.SUCCESS := by
      have := (Bool.and_eq_true _ _).mp hpred
      simpa using this.2
    have hstate : (rollbackDeployment db storeId version).2
        = updateStoreById db storeId (fun s => { s with deploymentUrl := d.url }) := by
      simp [rollbackDeployment, hfind]
    refine ⟨by simp [rollbackDeployment, hfind], hps, hpv, hpsu, ?_, ?_, ?_⟩
    · rw [hstate,
        findStore?_updateStoreById _ storeId
          (fun s => { s with deploymentUrl := d.url }) (fun s => rfl),
        hst, Option.map_some']
    · rw [hstate]; rfl
    · rw [hstate]; rfl

/-- Witness for C5 at concrete inputs: a version with no SUCCESS deployment
(v200 exists but FAILED; v999 absent) and the successful rollback to v100. -/
theorem c5_rollback_contract_witness :
    rollbackDeployment deployedDB "s1" "v200"
      = (Except.error (JsError.jsError "Deployment not found"), deployedDB)
    ∧ (rollbackDeployment deployedDB "s1" "v100").1
      = Except.ok (mkSampleDeployment 0 "v100" DeploymentStatus.SUCCESS
          (some "https://acme.stores.buildcart.ai") 100)
    ∧ findStore? (rollbackDeployment deployedDB "s1" "v100").2 "s1"
      = some { sampleStore with deploymentUrl := some "https://acme.stores.buildcart.ai" } :=
  ⟨(c5_rollback_contract deployedDB "s1" "v200").1 (by decide),
   ((c5_rollback_contract deployedDB "s1" "v100").2
      (mkSampleDeployment 0 "v100" DeploymentStatus.SUCCESS
        (some "https://acme.stores.buildcart.ai") 100) sampleStore
      (by decide) (by decide)).1,
   (((((c5_rollback_contract deployedDB "s1" "v100").2
      (mkSampleDeployment 0 "v100" DeploymentStatus.SUCCESS
        (some "https://acme.stores.buildcart.ai") 100) sampleStore
      (by decide) (by decide)).2).2).2).2.1⟩

/-- C6: on the deployments-listing route, once the ownership middleware has
passed, a requested limit above 100 is rejected by the query validation
(the fixed maximum of 100 is enforced); for an owner with accepted
positive page/limit the route returns the window of the store's deployments
that skips `(page-1)*limit` records and takes `limit` records out of the
newest-first ordering (a sorted permutation of the store's deployments),
never more than `limit` records, with the `pages` field equal to
`⌈total / limit⌉` and the i-th returned record being record
`(page-1)*limit + i` of the newest-first ordering. -/
theorem c6_getStoreDeployments_pagination (db : DB) (user : User) (storeId : String) :
    (∀ pageQ : Option Int, ∀ l : Int,
      verifyStoreOwnership db user storeId = Except.ok () → 100 < l →
      getStoreDeploymentsRoute db user storeId pageQ (some l)
        = Except.error (AppError.validationError "Validation failed"))
    ∧ (∀ st : Store, ∀ page limit : Int,
        findStore? db storeId = some st → st.userId = user.id →
        1 ≤ page → 1 ≤ limit → limit ≤ 100 →
        getStoreDeploymentsRoute db user storeId (some page) (some limit)
          = Except.ok
              (((sortByCreatedAtDesc (db.deployments.filter (fun d => d.storeId == storeId))).drop
                  ((page.toNat - 1) * limit.toNat)).take limit.toNat,
               { page := page.toNat, limit := limit.toNat,
                 total := (db.deployments.filter (fun d => d.storeId == storeId)).length,
                 pages := (db.deployments.filter (fun d => d.storeId == storeId)).length
                   ⌈/⌉ limit.toNat })
        ∧ (sortByCreatedAtDesc (db.deployments.filter (fun d => d.storeId == storeId))).Perm
            (db.deployments.filter (fun d => d.storeId == storeId))
        ∧ List.Sorted newerOrSame
            (sortByCreatedAtDesc (db.deployments.filter (fun d => d.storeId == storeId)))
        ∧ List.Sorted newerOrSame
            (((sortByCreatedAtDesc (db.deployments.filter (fun d => d.storeId == storeId))).drop
                ((page.toNat - 1) * limit.toNat)).take limit.toNat)
        ∧ (((sortByCreatedAtDesc (db.deployments.filter (fun d => d.storeId == storeId))).drop
              ((page.toNat - 1) * limit.toNat)).take limit.toNat).length ≤ limit.toNat
        ∧ (∀ i : Nat, i < limit.toNat →
            ((((sortByCreatedAtDesc (db.deployments.filter (fun d => d.storeId == storeId))).drop
                ((page.toNat - 1) * limit.toNat)).take limit.toNat))[i]?
              = (sortByCreatedAtDesc
                  (db.deployments.filter (fun d => d.storeId == storeId)))[(page.toNat - 1)
                    * limit.toNat + i]?)) := by
  constructor
  · intro pageQ l hverify hl
    have hcond : (pageQ.getD 1 < 1 ∨ (some l : Option Int).getD 10 < 1
        ∨ 100 < (some l : Option Int).getD 10) := by
      right; right; simpa using hl
    have hvalid : validateDeploymentsQuery pageQ (some l)
        = Except.error (AppError.validationError "Validation failed") := by
      simp only [validateDeploymentsQuery]
      rw [if_pos hcond]
    simp [getStoreDeploymentsRoute, hverify, hvalid]
  · intro st page limit hst huid h1p h1l hl100
    have hverify : verifyStoreOwnership db user storeId = Except.ok () := by
      by_cases hrole : user.role = Role.ADMIN ∨ user.role = Role.SUPER_ADMIN
      · simp [verifyStoreOwnership, hst, hrole]
      · have : ¬ st.userId ≠ user.id := by simp [huid]
        simp [verifyStoreOwnership, hst, hrole, this]
    have hcond : ¬ ((some page : Option Int).getD 1 < 1
        ∨ (some limit : Option Int).getD 10 < 1 ∨ 100 < (some limit : Option Int).getD 10) := by
      simp only [Option.getD_some]
      push_neg
      exact ⟨by omega, by omega, by omega⟩
    have hvalid : validateDeploymentsQuery (some page) (some limit)
        = Except.ok (page.toNat, limit.toNat) := by
      simp only [validateDeploymentsQuery]
      rw [if_neg hcond]
      simp
    have hacc : controllerAccessCheck st.userId user "Access denied to this store"
        = Except.ok () := by
      have hne : ¬ (st.userId ≠ user.id ∧ user.role ≠ Role.ADMIN) := by simp [huid]
      simp only [controllerAccessCheck]
      rw [if_neg hne]
    refine ⟨?_, List.perm_insertionSort _ _, List.sorted_insertionSort _ _, ?_, ?_, ?_⟩
    · simp only [getStoreDeploymentsRoute, hverify, hvalid, hst, hacc,
        getStoreDeployments, sortByCreatedAtDesc]
      have hlen : (List.insertionSort newerOrSame
            (db.deployments.filter (fun d => d.storeId == storeId))).length
          = (db.deployments.filter (fun d => d.storeId == storeId)).length :=
        (List.perm_insertionSort _ _).length_eq
      rw [hlen, Nat.ceilDiv_eq_add_pred_div]
    · exact List.Pairwise.sublist
        ((List.take_sublist _ _).trans (List.drop_sublist _ _))
        (List.sorted_insertionSort _ _)
    · calc (((sortByCreatedAtDesc (db.deployments.filter (fun d => d.storeId == storeId))).drop
            ((page.toNat - 1) * limit.toNat)).take limit.toNat).length
          = min limit.toNat _ := List.length_take _ _
        _ ≤ limit.toNat := Nat.min_le_left _ _
    · intro i hi
      rw [List.getElem?_take, if_pos hi, List.getElem?_drop]

/-- Witness for C6 at concrete inputs: limit 150 is rejected; page 2 with
limit 1 on a store with two deployments returns the second-newest record. -/
theorem c6_getStoreDeployments_pagination_witness :
    getStoreDeploymentsRoute deployedDB aliceUser "s1" none (some 150)
      = Except.error (AppError.validationError "Validation failed")
    ∧ getStoreDeploymentsRoute deployedDB aliceUser "s1" (some 2) (some 1)
      = Except.ok
          (((sortByCreatedAtDesc (deployedDB.deployments.filter (fun d => d.storeId == "s1"))).drop
              (((2 : Int).toNat - 1) * (1 : Int).toNat)).take (1 : Int).toNat,
           { page := (2 : Int).toNat, limit := (1 : Int).toNat,
             total := (deployedDB.deployments.filter (fun d => d.storeId == "s1")).length,
             pages := (deployedDB.deployments.filter (fun d => d.storeId == "s1")).length
               ⌈/⌉ (1 : Int).toNat }) :=
  ⟨(c6_getStoreDeployments_pagination deployedDB aliceUser "s1").1 none 150
      (by decide) (by decide),
   ((c6_getStoreDeployments_pagination deployedDB aliceUser "s1").2 sampleStore 2 1
      (by decide) (by decide) (by decide) (by decide) (by decide)).1⟩

/-- The opening tag of a product-card fragment, the marker counted to show
the listing page holds exactly one card per product. -/
def productCardMarker : List Char :=
  "<div class=\"product-card\">".data

theorem pcMarker_head : productCardMarker.head? = some '<' := by decide

/-- The interpolated fields of one listing-page product card contain no `<`
character (so they can neither contain nor help straddle a card marker). -/
def cardFieldsClear (p : Product) : Prop :=
  '<' ∉ (jsOrStr p.images.head? "/placeholder.jpg").data
  ∧ '<' ∉ p.name.data
  ∧ '<' ∉ (jsOrOpt p.shortDescription p.description).data
  ∧ '<' ∉ p.price.data
  ∧ '<' ∉ p.id.data

instance (p : Product) : Decidable (cardFieldsClear p) := by
  unfold cardFieldsClear
  infer_instance

theorem length_le_of_countOccs_pos (pat : List Char) :
    ∀ s, 0 < countOccs pat s → pat.length ≤ s.length := by
  intro s
  induction s with
  | nil => intro h; simp [countOccs] at h
  | cons c cs ih =>
      intro h
      by_cases hp : pat.isPrefixOf (c :: cs) = true
      · exact (List.isPrefixOf_iff_prefix.mp hp).length_le
      · have hz : countOccs pat (c :: cs) = countOccs pat cs := by
          simp [countOccs, hp]
        rw [hz] at h
        exact le_trans (ih h) (by simp)

theorem suffix_append_chain (l₁ : List Char) {y l₂ : List Char} (h : y <:+ l₂) :
    y <:+ l₁ ++ l₂ :=
  h.trans (List.suffix_append l₁ l₂)

theorem tailClear_of_suffix (pat : List Char) {s y : List Char} (hsuf : y <:+ s)
    (hy : tailClear pat y = true) (hlen : pat.length ≤ y.length + 1) :
    tailClear pat s = true := by
  obtain ⟨t, ht⟩ := hsuf
  rw [← ht]
  exact tailClear_append_right pat t y hy hlen

/-- A listing-page product card whose fields are clear of `<` contains the
card marker exactly once. -/
theorem countOccs_card (p : Product) (hp : cardFieldsClear p) :
    countOccs productCardMarker (productCardHtml p).data = 1 := by
  obtain ⟨himg, hname, hdesc, hprice, hid⟩ := hp
  simp only [productCardHtml, String.data_append, List.append_assoc]
  rw [countOccs_append productCardMarker, countOccs_append productCardMarker,
    countOccs_append productCardMarker, countOccs_append productCardMarker,
    countOccs_append productCardMarker, countOccs_append productCardMarker,
    countOccs_append productCardMarker, countOccs_append productCardMarker,
    countOccs_append productCardMarker, countOccs_append productCardMarker,
    countOccs_append productCardMarker, countOccs_append productCardMarker]
  · rw [countOccs_eq_zero_of_head_not_mem pcMarker_head himg,
      countOccs_eq_zero_of_head_not_mem pcMarker_head hname,
      countOccs_eq_zero_of_head_not_mem pcMarker_head hdesc,
      countOccs_eq_zero_of_head_not_mem pcMarker_head hprice,
      countOccs_eq_zero_of_head_not_mem pcMarker_head hid]
    decide
  all_goals
    first
      | decide
      | exact tailClear_of_head_not_mem pcMarker_head himg
      | exact tailClear_of_head_not_mem pcMarker_head hname
      | exact tailClear_of_head_not_mem pcMarker_head hdesc
      | exact tailClear_of_head_not_mem pcMarker_head hprice
      | exact tailClear_of_head_not_mem pcMarker_head hid

/-- A product card always ends in a literal longer than the marker, so no
marker occurrence can straddle its end. -/
theorem tailClear_card (p : Product) :
    tailClear productCardMarker (productCardHtml p).data = true := by
  simp only [productCardHtml, String.data_append, List.append_assoc]
  apply tailClear_of_suffix productCardMarker
  · repeat apply suffix_append_chain
    exact List.suffix_rfl
  · decide
  · decide

/-- Joined card list: one marker occurrence per product, and no marker can
straddle its end. -/
theorem countOccs_cards (ps : List Product) (h : ∀ p ∈ ps, cardFieldsClear p) :
    countOccs productCardMarker (String.join (ps.map productCardHtml)).data = ps.length
    ∧ tailClear productCardMarker (String.join (ps.map productCardHtml)).data = true := by
  induction ps with
  | nil => exact ⟨rfl, rfl⟩
  | cons p ps ih =>
      have hp := h p (List.mem_cons_self p ps)
      have hps : ∀ q ∈ ps, cardFieldsClear q := fun q hq => h q (List.mem_cons_of_mem p hq)
      obtain ⟨ihc, iht⟩ := ih hps
      have hjoin : (String.join ((p :: ps).map productCardHtml)).data
          = (productCardHtml p).data ++ (String.join (ps.map productCardHtml)).data := by
        rw [List.map_cons, string_join_cons, String.data_append]
      constructor
      · rw [hjoin, countOccs_append productCardMarker _ _ (tailClear_card p),
          countOccs_card p hp, ihc, List.length_cons]
        omega
      · rw [hjoin]
        rcases hzero : ps with _ | ⟨q, qs⟩
        · have hnil : (String.join (([] : List Product).map productCardHtml)).data = [] := rfl
          rw [hnil, List.append_nil]
          exact tailClear_card p
        · rw [hzero] at ihc iht
          have hpos : 0 < countOccs productCardMarker
              (String.join ((q :: qs).map productCardHtml)).data := by
            rw [ihc]
            simp
          have hlen := length_le_of_countOccs_pos productCardMarker _ hpos
          exact tailClear_of_suffix productCardMarker (List.suffix_append _ _) iht
            (le_trans hlen (Nat.le_succ _))

set_option maxRecDepth 16384 in
/-- The fixed text of the listing page before the card grid contains no card
marker (the only interpolations there are the store name). -/
theorem countOccs_productsPageHead (store : Store) (hname : '<' ∉ store.name.data) :
    countOccs productCardMarker (productsPageHead store).data = 0 := by
  simp only [productsPageHead, String.data_append, List.append_assoc]
  rw [countOccs_append productCardMarker, countOccs_append productCardMarker,
    countOccs_append productCardMarker, countOccs_append productCardMarker]
  · rw [countOccs_eq_zero_of_head_not_mem pcMarker_head hname]
    decide
  all_goals
    first
      | decide
      | exact tailClear_of_head_not_mem pcMarker_head hname

set_option maxRecDepth 16384 in
/-- No marker occurrence can straddle the end of the head part of the
listing page. -/
theorem tailClear_productsPageHead (store : Store) :
    tailClear productCardMarker (productsPageHead store).data = true := by
  simp only [productsPageHead, String.data_append, List.append_assoc]
  apply tailClear_of_suffix productCardMarker
  · repeat apply suffix_append_chain
    exact List.suffix_rfl
  · decide
  · decide

set_option maxRecDepth 16384 in
/-- The fixed text of the listing page after the card grid contains no card
marker either. -/
theorem countOccs_productsPageTail (store : Store) (hname : '<' ∉ store.name.data) :
    countOccs productCardMarker (productsPageTail store).data = 0 := by
  simp only [productsPageTail, String.data_append, List.append_assoc]
  rw [countOccs_append productCardMarker, countOccs_append productCardMarker]
  · rw [countOccs_eq_zero_of_head_not_mem pcMarker_head hname]
    decide
  all_goals
    first
      | decide
      | exact tailClear_of_head_not_mem pcMarker_head hname

/-- C7: for every store snapshot the generated build consists of exactly the
fixed document set — `index.html`, `products.html`, one
`product/<urlHandle-or-id>.html` per active product (in snapshot order),
`cart.html`, `checkout.html`, `contact.html`, `about.html`, `styles.css`,
`scripts.js`, `sitemap.xml`, `robots.txt` — and the products listing page is
the fixed page text around the concatenation of one product-card fragment
per active product, in snapshot order: the card list has one entry per
product, its i-th entry is the card of the i-th product, the zero-product
case still renders the listing page with an empty grid, and (for snapshots
whose interpolated fields contain no `<`, so that no spurious or straddled
tag can arise) the page text contains the product-card marker exactly
`products.length` times. -/
theorem c7_render_fixed_document_set (envSuffix : Option String) (store : Store)
    (nowIso : String) :
    ((generateSiteFiles envSuffix store nowIso).map Prod.fst
      = ["index.html", "products.html"]
        ++ store.products.map (fun p => "product/" ++ (jsOrStr p.urlHandle p.id) ++ ".html")
        ++ ["cart.html", "checkout.html", "contact.html", "about.html", "styles.css",
            "scripts.js", "sitemap.xml", "robots.txt"])
    ∧ generateProductsPageHtml store
        = productsPageHead store ++ String.join (store.products.map productCardHtml)
          ++ productsPageTail store
    ∧ (store.products.map productCardHtml).length = store.products.length
    ∧ (∀ i : Nat, (store.products.map productCardHtml)[i]?
        = (store.products[i]?).map productCardHtml)
    ∧ (store.products = [] →
        generateProductsPageHtml store
          = productsPageHead store ++ "" ++ productsPageTail store)
    ∧ ('<' ∉ store.name.data →
        (∀ p ∈ store.products, cardFieldsClear p) →
        countOccs productCardMarker (generateProductsPageHtml store).data
          = store.products.length) := by
  refine ⟨?_, rfl, List.length_map _ _, ?_, ?_, ?_⟩
  · simp [generateSiteFiles, List.map_append, List.map_map, Function.comp]
  · intro i
    exact List.getElem?_map productCardHtml store.products i
  · intro hzero
    show productsPageHead store ++ String.join (store.products.map productCardHtml)
        ++ productsPageTail store = _
    rw [hzero]
    rfl
  · intro hname hfields
    have hpage : (generateProductsPageHtml store).data
        = (productsPageHead store).data
          ++ ((String.join (store.products.map productCardHtml)).data
            ++ (productsPageTail store).data) := by
      simp only [generateProductsPageHtml, String.data_append, List.append_assoc]
    rw [hpage,
      countOccs_append productCardMarker _ _ (tailClear_productsPageHead store),
      countOccs_append productCardMarker _ _ (countOccs_cards store.products hfields).2,
      countOccs_productsPageHead store hname,
      (countOccs_cards store.products hfields).1,
      countOccs_productsPageTail store hname]
    omega

set_option maxRecDepth 16384 in
/-- Witness for C7 at concrete inputs: the two-product sample store and the
zero-product store. -/
theorem c7_render_fixed_document_set_witness :
    ((generateSiteFiles none sampleStore "2024-01-03T00:00:00.000Z").map Prod.fst
      = ["index.html", "products.html", "product/widget.html", "product/p2.html",
         "cart.html", "checkout.html", "contact.html", "about.html", "styles.css",
         "scripts.js", "sitemap.xml", "robots.txt"])
    ∧ generateProductsPageHtml emptyStore
        = productsPageHead emptyStore ++ "" ++ productsPageTail emptyStore
    ∧ countOccs productCardMarker (generateProductsPageHtml sampleStore).data = 2 :=
  ⟨(c7_render_fixed_document_set none sampleStore "2024-01-03T00:00:00.000Z").1,
   (c7_render_fixed_document_set none emptyStore "t").2.2.2.2.1 (by decide),
   (c7_render_fixed_document_set none sampleStore "t").2.2.2.2.2 (by decide) (by decide)⟩

/-- C8, counterexample: a non-owner non-admin caller of the deployment
status operation is rejected with a ValidationError — not an
authorization-typed failure as claimed. -/
theorem c8_status_denial_is_validation_typed :
    getDeploymentStatusCtrl deployedDB bobUser 0
      = Except.error (AppError.validationError "Access denied to this deployment")
    ∧ isAuthorizationFailure (AppError.validationError "Access denied to this deployment")
      = false := by
  decide

/-- C8, amended: operations guarded by the `verifyStoreOwnership` middleware
(deploy, list, rollback, domain, ssl, analytics, config) reject a non-owner
caller without admin rights with an authorization-typed failure before
touching the target, but the deployment-id-keyed operations (status, logs,
delete) perform the ownership check inside the controller and reject the
same caller with `ValidationError('Access denied to this deployment')` —
a validation-typed failure — before performing any action (for delete, the
record is not removed). -/
theorem c8_amended_access_denial_types (db : DB) (user : User) (storeId : String)
    (deploymentId : Nat) :
    (∀ st, findStore? db storeId = some st → st.userId ≠ user.id →
      user.role ≠ Role.ADMIN → user.role ≠ Role.SUPER_ADMIN →
      verifyStoreOwnership db user storeId
        = Except.error (AppError.authorizationError "Access denied to this store")
      ∧ isAuthorizationFailure (AppError.authorizationError "Access denied to this store")
        = true)
    ∧ (∀ d st, findDeployment? db deploymentId = some d →
        findStore? db d.storeId = some st → st.userId ≠ user.id →
        user.role ≠ Role.ADMIN →
        getDeploymentStatusCtrl db user deploymentId
          = Except.error (AppError.validationError "Access denied to this deployment")
        ∧ getDeploymentLogsCtrl db user deploymentId
          = Except.error (AppError.validationError "Access denied to this deployment")
        ∧ deleteDeploymentCtrl db user deploymentId
          = Except.error (AppError.validationError "Access denied to this deployment")
        ∧ isAuthorizationFailure (AppError.validationError "Access denied to this deployment")
          = false) := by
  constructor
  · intro st hst hown hadm hsadm
    have hrole : ¬ (user.role = Role.ADMIN ∨ user.role = Role.SUPER_ADMIN) := by
      intro hc
      rcases hc with hc | hc
      · exact hadm hc
      · exact hsadm hc
    refine ⟨?_, rfl⟩
    simp [verifyStoreOwnership, hst, hrole, hown]
  · intro d st hd hst hown hadm
    have hacc : controllerAccessCheck st.userId user "Access denied to this deployment"
        = Except.error (AppError.validationError "Access denied to this deployment") := by
      unfold controllerAccessCheck
      rw [if_pos ⟨hown, hadm⟩]
    refine ⟨?_, ?_, ?_, rfl⟩
    · simp [getDeploymentStatusCtrl, hd, hst, hacc]
    · simp [getDeploymentLogsCtrl, hd, hst, hacc]
    · simp [deleteDeploymentCtrl, hd, hst, hacc]

/-- Witness for the amended C8 theorem at concrete inputs (user bob against
alice's store s1 and its deployment 0). -/
theorem c8_amended_access_denial_types_witness :
    verifyStoreOwnership deployedDB bobUser "s1"
      = Except.error (AppError.authorizationError "Access denied to this store")
    ∧ deleteDeploymentCtrl deployedDB bobUser 0
      = Except.error (AppError.validationError "Access denied to this deployment") :=
  ⟨((c8_amended_access_denial_types deployedDB bobUser "s1" 0).1 sampleStore
      (by decide) (by decide) (by decide) (by decide)).1,
   ((c8_amended_access_denial_types deployedDB bobUser "s1" 0).2
      (mkSampleDeployment 0 "v100" DeploymentStatus.SUCCESS
        (some "https://acme.stores.buildcart.ai") 100) sampleStore
      (by decide) (by decide) (by decide) (by decide)).2.2.1⟩

/-- C9, counterexample: two deploy calls for the same store within the same
millisecond (`Date.now()` returns 1000 for both) create two deployment
records carrying the identical version label `v1000` — version labels are
not distinct for every pair of deployments. -/
theorem c9_same_millisecond_deploys_share_version :
    ((deployStore none ((deployStore none sampleDB "s1" "production" 1000 "t"
          (some "x")).2) "s1" "production" 1000 "t" (some "x")).2.deployments.map
        (fun d => (d.storeId, d.version)))
      = [("s1", "v1000"), ("s1", "v1000")] := by
  decide

/-- C9, amended: every deploy call on an existing store appends exactly one
new Deployment record whose version label is `v` followed by the decimal
millisecond clock; the label decodes back to the clock, so two deployments
have distinct labels exactly when their creation clocks differ, and labels
of later-created deployments embed strictly larger clocks — but deploys
within the same millisecond share one label. -/
theorem c9_amended_version_label_clock (envSuffix : Option String) (db : DB)
    (storeId environment : String) (t : Nat) (nowIso : String) :
    ((findStore? db storeId).isSome → ∀ fsFail : Option String,
      ((deployStore envSuffix db storeId environment t nowIso fsFail).2.deployments.map
          Deployment.version)
        = db.deployments.map Deployment.version ++ [generateVersion t])
    ∧ (∀ t1 t2 : Nat,
        versionTimeMs (generateVersion t1) = some t1
        ∧ (t1 ≠ t2 → generateVersion t1 ≠ generateVersion t2)
        ∧ (t1 < t2 → ∀ u1 u2, versionTimeMs (generateVersion t1) = some u1 →
            versionTimeMs (generateVersion t2) = some u2 → u1 < u2)) := by
  constructor
  · intro hsome fsFail
    obtain ⟨st, hst⟩ := Option.isSome_iff_exists.mp hsome
    cases fsFail with
    | some msg => simp [deployStore, hst, updateStoreById]
    | none =>
        simp only [deployStore, hst, updateStoreById, updateDeploymentById,
          List.map_append, List.map_map]
        congr 1
        · refine List.map_congr_left ?_
          intro d _
          by_cases hq : d.id = db.nextDeploymentId <;> simp [hq]
        · simp
  · intro t1 t2
    refine ⟨versionTimeMs_generateVersion t1, ?_, ?_⟩
    · intro hne hc
      exact hne (generateVersion_inj hc)
    · intro hlt u1 u2 h1 h2
      rw [versionTimeMs_generateVersion t1] at h1
      rw [versionTimeMs_generateVersion t2] at h2
      cases h1
      cases h2
      exact hlt

/-- Witness for the amended C9 theorem at concrete inputs. -/
theorem c9_amended_version_label_clock_witness :
    ((deployStore none sampleDB "s1" "production" 5 "t" (some "x")).2.deployments.map
        Deployment.version)
      = sampleDB.deployments.map Deployment.version ++ [generateVersion 5]
    ∧ ((deployStore none sampleDB "s1" "production" 5 "t" none).2.deployments.map
        Deployment.version)
      = sampleDB.deployments.map Deployment.version ++ [generateVersion 5]
    ∧ generateVersion 5 ≠ generateVersion 7 :=
  ⟨(c9_amended_version_label_clock none sampleDB "s1" "production" 5 "t").1 (by decide)
     (some "x"),
   (c9_amended_version_label_clock none sampleDB "s1" "production" 5 "t").1 (by decide) none,
   (((c9_amended_version_label_clock none sampleDB "s1" "production" 5 "t").2 5 7).2.1
     (by decide))⟩

/-- C10: the featured-products section of the home page holds exactly the
cards of the first six products of the snapshot's active product list, in
order — never more than six, and nothing beyond index five even when the
store has more active products (only the listing page enumerates all of
them, see C7). -/
theorem c10_home_featured_first_six (envSuffix : Option String) (store : Store) :
    generateHomePageHtml envSuffix store
      = homePageHead envSuffix store
        ++ String.join ((store.products.take 6).map homeProductCardHtml)
        ++ homePageTail store
    ∧ ((store.products.take 6).map homeProductCardHtml).length
        = min 6 store.products.length
    ∧ ((store.products.take 6).map homeProductCardHtml).length ≤ 6
    ∧ (∀ i : Nat, i < 6 →
        ((store.products.take 6).map homeProductCardHtml)[i]?
          = (store.products[i]?).map homeProductCardHtml)
    ∧ (∀ i : Nat, 6 ≤ i →
        ((store.products.take 6).map homeProductCardHtml)[i]? = none) := by
  refine ⟨rfl, ?_, ?_, ?_, ?_⟩
  · rw [List.length_map, List.length_take]
  · rw [List.length_map, List.length_take]
    exact Nat.min_le_left _ _
  · intro i hi
    rw [List.getElem?_map homeProductCardHtml _ i, List.getElem?_take, if_pos hi]
  · intro i hi
    rw [List.getElem?_map homeProductCardHtml _ i, List.getElem?_take,
      if_neg (by omega)]
    rfl

/-- A store with seven active products, for exercising the six-card cap. -/
def bigStore : Store :=
  { sampleStore with products := List.replicate 7 sampleProduct1 }

/-- Witness for C10 at concrete inputs: with seven products the featured
grid holds six cards; index 6 is empty although a seventh product exists. -/
theorem c10_home_featured_first_six_witness :
    ((bigStore.products.take 6).map homeProductCardHtml)[0]?
      = (bigStore.products[0]?).map homeProductCardHtml
    ∧ ((bigStore.products.take 6).map homeProductCardHtml)[6]? = none
    ∧ ((bigStore.products.take 6).map homeProductCardHtml).length = min 6 bigStore.products.length :=
  ⟨(c10_home_featured_first_six none bigStore).2.2.2.1 0 (by decide),
   (c10_home_featured_first_six none bigStore).2.2.2.2 6 (by decide),
   (c10_home_featured_first_six none bigStore).2.1⟩
